import Mathlib

/-!
Verification development for the `ai-resume` repository.

The repository automates a job-search-and-resume workflow:
`fetch_job/job_search.py` scrapes LinkedIn listings, filters them by
relevance and applicant count and writes CSV/JSON reports, and
`run_workflow.py` orchestrates four external steps with a resumable
JSON state file.

This file is a shallow embedding of the parts of that code that the
stated properties are about.  Pure Python functions become Lean
functions; the stateful page-fetch loops become functions consuming a
finite trace of page responses (the environment); fallible operations
(HTTP fetches, subprocess calls) are modelled by explicit outcome
values supplied by the environment.  BeautifulSoup query results are
modelled as oracle data carried by the `Soup` structure, since the
HTML library itself is external to the repository.
-/

/-! ## String utilities

Python text operations used by `job_search.py`, modelled over
`List Char` (all strings involved are ASCII). -/

/-- Python `str.lower()` restricted to ASCII, as used by the code. -/
def lowerStr (s : String) : String :=
  ⟨s.data.map Char.toLower⟩

/-- Whitespace characters recognised by Python `str.split()` (the ASCII
ones; the repository's strings contain only spaces). -/
def isWsChar (c : Char) : Bool :=
  c = ' ' || c = '\t' || c = '\n' || c = '\r'

/-- Decide whether `pre` is a leading segment of `l` (used to model
Python substring search position by position). -/
def startsWithL : List Char → List Char → Bool
  | [], _ => true
  | _ :: _, [] => false
  | a :: as, b :: bs => a = b && startsWithL as bs

/-- Python `needle in hay` substring containment over char lists. -/
def containsSubL (needle : List Char) : List Char → Bool
  | [] => startsWithL needle []
  | c :: t => startsWithL needle (c :: t) || containsSubL needle t

/-- Python `needle in hay` on strings. -/
def strContains (hay needle : String) : Bool :=
  containsSubL needle.data hay.data

/-- Helper for `splitWs`: accumulates the current word (reversed). -/
def splitWsAux : List Char → List Char → List (List Char)
  | [], cur => if cur = [] then [] else [cur.reverse]
  | c :: cs, cur =>
    if isWsChar c then
      if cur = [] then splitWsAux cs []
      else cur.reverse :: splitWsAux cs []
    else splitWsAux cs (c :: cur)

/-- Python `str.split()` with no argument: split on whitespace runs,
dropping empty fragments. -/
def splitWs (s : String) : List String :=
  (splitWsAux s.data []).map fun w => ⟨w⟩

/-- Digit test for the `\d` regex class (ASCII digits). -/
def isDigitCh (c : Char) : Bool :=
  '0' ≤ c && c ≤ '9'

/-- Python `int()` on a nonempty ASCII digit string (the only inputs it
receives here are regex `\d+` captures). -/
def digitsToNat (ds : List Char) : Nat :=
  ds.foldl (fun a c => 10 * a + (c.toNat - '0'.toNat)) 0

/-! ## Relevance filter

Embedding of `InteractiveJobSearcher.is_job_relevant`
(`src/fetch_job/job_search.py:154-198`). -/

/-- The allow list for the hard-coded "corporate communications"
search, verbatim from the source. -/
def relevant_keywords : List String :=
  ["communications", "communication", "corporate communications",
   "internal communications", "external communications",
   "strategic communications", "public relations", "pr",
   "media relations", "content strategy", "brand communications",
   "marketing communications", "marcom", "corporate affairs"]

/-- The deny list for the hard-coded "corporate communications"
search, verbatim from the source. -/
def irrelevant_keywords : List String :=
  ["talent manager", "people", "culture", "hr", "human resources",
   "administrative assistant", "admin", "care facilitator",
   "case manager", "events manager", "retail", "sales",
   "customer service", "account manager"]

/-- Number of search words that occur as a substring of some title
word: `sum(1 for word in search_words if any(word in title_word for
title_word in title_words))` from the generic branch of
`is_job_relevant`. -/
def matchesCount (search_words title_words : List String) : Nat :=
  search_words.countP fun w => title_words.any fun t => strContains t w

/-- `InteractiveJobSearcher.is_job_relevant`.  The generic-branch
comparison `matches >= len(search_words) * 0.6` is embedded as the
exact integer inequality `5 * matches >= 3 * len`, which is what the
Python float comparison computes for every word count arising here
(the double product `n * 0.6` never crosses an integer relative to the
exact rational `3n/5`, because the representation error is far below
the distance 1/5 to the nearest integer and rounding of `n * 0.6`
cannot land strictly above an integer `3n/5`). -/
def is_job_relevant (job_title search_keywords : String) : Bool :=
  let job_title_lower := lowerStr job_title
  let search_lower := lowerStr search_keywords
  if strContains search_lower "corporate communications" then
    if irrelevant_keywords.any fun k => strContains job_title_lower k then
      false
    else
      relevant_keywords.any fun k => strContains job_title_lower k
  else
    let search_words := splitWs search_lower
    let title_words := splitWs job_title_lower
    let numMatches := matchesCount search_words title_words
    5 * numMatches ≥ 3 * search_words.length

/-- Specification-level form of the generic heuristic: at least 60% of
the query words appear as substrings of some title word (stated over
the rationals, as the spec's "fraction of words present"). -/
def fracWordsPresent (job_title search_keywords : String) : Prop :=
  let search_words := splitWs (lowerStr search_keywords)
  let title_words := splitWs (lowerStr job_title)
  (matchesCount search_words title_words : ℚ) ≥
    (search_words.length : ℚ) * (3 / 5)

/-! ## Applicant-count extraction

Embedding of the regex scans in
`get_linkedin_applicant_count_from_soup` (lines 826-846) and
`get_linkedin_applicant_count` (lines 848-884).  `re.findall(p, t)`
followed by `matches[0]` yields the capture of the leftmost match, so
each pattern is embedded as a leftmost scan; the quantifiers `\d+` and
`\s+` are followed by characters disjoint from their classes, so greedy
maximal munch is exact. -/

/-- Consume one-or-more digits (`\d+`); return the digits and the rest,
or `none` when the input does not start with a digit. -/
def takeDigits1 (cs : List Char) : Option (List Char × List Char) :=
  let ds := cs.takeWhile isDigitCh
  if ds = [] then none else some (ds, cs.dropWhile isDigitCh)

/-- Consume one-or-more whitespace characters (`\s+`). -/
def takeWs1 (cs : List Char) : Option (List Char) :=
  let ws := cs.takeWhile isWsChar
  if ws = [] then none else some (cs.dropWhile isWsChar)

/-- Consume an exact literal. -/
def takeLit (lit : List Char) (cs : List Char) : Option (List Char) :=
  if startsWithL lit cs then some (cs.drop lit.length) else none

/-- Attempt `(\d+)\s+applicants?` at the current position; the trailing
optional `s` does not affect whether a match exists. -/
def pat1At (cs : List Char) : Option Nat := do
  let (ds, r1) ← takeDigits1 cs
  let r2 ← takeWs1 r1
  let _ ← takeLit "applicant".data r2
  pure (digitsToNat ds)

/-- Attempt `be\s+among\s+the\s+first\s+(\d+)\s+applicants?` at the
current position. -/
def pat2At (cs : List Char) : Option Nat := do
  let r1 ← takeLit "be".data cs
  let r2 ← takeWs1 r1
  let r3 ← takeLit "among".data r2
  let r4 ← takeWs1 r3
  let r5 ← takeLit "the".data r4
  let r6 ← takeWs1 r5
  let r7 ← takeLit "first".data r6
  let r8 ← takeWs1 r7
  let (ds, r9) ← takeDigits1 r8
  let r10 ← takeWs1 r9
  let _ ← takeLit "applicant".data r10
  pure (digitsToNat ds)

/-- Attempt `over\s+(\d+)\s+applicants?` at the current position. -/
def pat3At (cs : List Char) : Option Nat := do
  let r1 ← takeLit "over".data cs
  let r2 ← takeWs1 r1
  let (ds, r3) ← takeDigits1 r2
  let r4 ← takeWs1 r3
  let _ ← takeLit "applicant".data r4
  pure (digitsToNat ds)

/-- Attempt `(\d+)\s+people\s+applied` at the current position. -/
def pat4At (cs : List Char) : Option Nat := do
  let (ds, r1) ← takeDigits1 cs
  let r2 ← takeWs1 r1
  let r3 ← takeLit "people".data r2
  let r4 ← takeWs1 r3
  let _ ← takeLit "applied".data r4
  pure (digitsToNat ds)

/-- Leftmost match of a position matcher, i.e. the first capture of
`re.findall`. -/
def findLeftmost (patAt : List Char → Option Nat) : List Char → Option Nat
  | [] => patAt []
  | c :: cs =>
    match patAt (c :: cs) with
    | some n => some n
    | none => findLeftmost patAt cs

/-- The shared body of both applicant-count extractors: try the four
patterns in source order on the lowercased page text; if none matches,
return the fixed low estimate 5 when the qualitative "be among the
first" phrase co-occurs with "applicant"; otherwise `none`.
(`job_search.py:828-846`, duplicated verbatim at lines 861-877.) -/
def applicantCountFromText (raw : String) : Option Nat :=
  let t := (lowerStr raw).data
  match findLeftmost pat1At t with
  | some n => some n
  | none =>
    match findLeftmost pat2At t with
    | some n => some n
    | none =>
      match findLeftmost pat3At t with
      | some n => some n
      | none =>
        match findLeftmost pat4At t with
        | some n => some n
        | none =>
          if containsSubL "be among the first".data t &&
             containsSubL "applicant".data t then
            some 5
          else
            none

/-- `get_linkedin_applicant_count_from_soup` applied to a fetched page:
its only input is `soup.get_text()`, modelled as the raw page text. -/
def get_linkedin_applicant_count_from_soup (pageText : String) : Option Nat :=
  applicantCountFromText pageText

/-- Outcome of the HTTP fetch performed by
`get_linkedin_applicant_count`: either the text of the fetched posting
page, or any exception (caught and turned into `None`). -/
inductive CountFetch where
  | ok (pageText : String)
  | fail
deriving DecidableEq

/-- `get_linkedin_applicant_count(job_id)` (lines 848-884): `None` for
a falsy job id; otherwise fetch the posting endpoint and run the same
pattern scan (duplicated verbatim in the source), with every exception
mapped to `None`. -/
def get_linkedin_applicant_count (job_id : Option String) (f : CountFetch) :
    Option Nat :=
  match job_id with
  | none => none
  | some _ =>
    match f with
    | .fail => none
    | .ok pageText => applicantCountFromText pageText

/-! ## Job records and listing extraction

`JobRecord` is the dict built by `extract_linkedin_job_data`
(lines 549-611).  Both search paths call that function with
`fetch_details=False`, so the record always carries the seven detail
keys (initialised to `None`) and its `applicants` field is always
`None` at extraction time; we embed that instantiation. -/

structure JobRecord where
  title : String
  company : String
  location : String
  /-- `link` is `"N/A"` when the anchor element is missing, and the
  `href` attribute (possibly Python `None`) otherwise. -/
  link : Option String
  job_id : Option String
  applicants : Option Nat
  posting_date : Option String
  source : String
  scraped_at : String
  job_description : Option String
  job_type : Option String
  seniority_level : Option String
  company_size : Option String
  industry : Option String
  skills_required : Option String
  salary_range : Option String
deriving DecidableEq

/-- The data a listing fragment ("job card") yields to the structural
lookups of `extract_linkedin_job_data`: each field is the result of the
corresponding BeautifulSoup query, and `raisesError` models a card
whose processing raises (the surrounding `except` skips it). -/
structure JobCard where
  titleElem : Option String
  companyElem : Option String
  locationElem : Option String
  /-- `none`: no `base-card__full-link` anchor (link becomes `"N/A"`);
  `some h`: anchor present with `href` attribute `h` (itself optional). -/
  linkHref : Option (Option String)
  /-- `none`: no `listdate` element (date becomes `"N/A"`); `some d`:
  element present with `datetime` attribute `d` (itself optional). -/
  dateElem : Option (Option String)
  /-- `datetime.now().isoformat()` at extraction time. -/
  nowIso : String
  raisesError : Bool
deriving DecidableEq

/-- Leftmost match of `/jobs/view/(\d+)` (`re.search` in
`extract_linkedin_job_data`): scan for the literal `/jobs/view/`
followed by at least one digit; on a near miss keep scanning. -/
def findJobsViewId : List Char → Option String
  | [] => none
  | c :: cs =>
    if startsWithL "/jobs/view/".data (c :: cs) then
      let ds := ((c :: cs).drop 11).takeWhile isDigitCh
      if ds = [] then findJobsViewId cs else some ⟨ds⟩
    else findJobsViewId cs

/-- Python truthiness of the optional link string (`None` and `""` are
falsy). -/
def truthyOptStr : Option String → Bool
  | none => false
  | some s => s ≠ ""

/-- `extract_linkedin_job_data(card, fetch_details=False)` — the only
instantiation the search paths use.  Returns `none` when extraction
raises.  With `fetch_details=False` the applicant count is never
fetched (so it is `None`) and the seven detail keys are added as
`None`. -/
def extract_linkedin_job_data (card : JobCard) : Option JobRecord :=
  if card.raisesError then none
  else
    let title := card.titleElem.getD "N/A"
    let company := card.companyElem.getD "N/A"
    let location := card.locationElem.getD "N/A"
    let link : Option String :=
      match card.linkHref with
      | none => some "N/A"
      | some h => h
    let posting_date : Option String :=
      match card.dateElem with
      | none => some "N/A"
      | some d => d
    let job_id : Option String :=
      match link with
      | none => none
      | some l =>
        if l ≠ "" && strContains l "linkedin.com/jobs/view/" then
          findJobsViewId l.data
        else none
    some
      { title := title, company := company, location := location,
        link := link, job_id := job_id, applicants := none,
        posting_date := posting_date, source := "LinkedIn",
        scraped_at := card.nowIso, job_description := none,
        job_type := none, seniority_level := none, company_size := none,
        industry := none, skills_required := none, salary_range := none }

/-! ## Detail fetching

`get_detailed_job_info` (lines 613-691) and its helpers.  A fetched
page is a `Soup`; the fields of `Soup` are the results of the
BeautifulSoup queries the helpers perform on it (the HTML library is
external, so its query results are environment data), plus the result
of the selector cascade of `extract_job_description` (lines 693-781),
whose internals are pure HTML scanning that no stated property
depends on. -/

structure Soup where
  /-- `soup.get_text()` of the whole page. -/
  text : String
  /-- Result of the selector cascade and text fallbacks of
  `extract_job_description` on this page (always a string; the final
  fallback returns "Job description not available"). -/
  descResult : String
  /-- `soup.find(string=re.compile(r'(Full-time|...)', re.I))`. -/
  jobTypeMatch : Option String
  /-- `soup.find(string=re.compile(r'(Entry level|...)', re.I))`. -/
  seniorityMatch : Option String
  /-- Texts of the `span`/`div` children of the skills section, when a
  section with "skill" in its class is found. -/
  skillsSection : Option (List String)
  /-- `soup.find(string=re.compile(r'\$\d+', re.I))`. -/
  salaryMatch : Option String
  /-- `soup.find(string=re.compile(r'(Technology|...)', re.I))`. -/
  industryMatch : Option String
deriving DecidableEq

/-- `extract_job_description(soup)`: modelled by the `descResult`
carried by the page (see `Soup`). -/
def extract_job_description (soup : Soup) : String :=
  soup.descResult

/-- Python `str.strip()` (ASCII whitespace). -/
def stripStr (s : String) : String :=
  ⟨(s.data.dropWhile isWsChar).reverse.dropWhile isWsChar |>.reverse⟩

/-- Python `', '.join(l)`. -/
def joinCommaSpace : List String → String
  | [] => ""
  | [s] => s
  | s :: rest => s ++ ", " ++ joinCommaSpace rest

/-- Leftmost match of the salary regex
`\$[\d,]+(?:\s*-\s*\$[\d,]+)?(?:\s*(?:per|/)\s*(?:year|hour|month))?`
(`re.search` in `extract_job_details`).  Both optional groups are
matched greedily; their leading characters are disjoint from what
follows, so maximal munch is exact. -/
def isDigitOrComma (c : Char) : Bool :=
  isDigitCh c || c = ','

/-- Match `\$[\d,]+` at a position, returning consumed text and rest. -/
def salaryCoreAt (cs : List Char) : Option (List Char × List Char) :=
  match cs with
  | '$' :: rest =>
    let ds := rest.takeWhile isDigitOrComma
    if ds = [] then none else some ('$' :: ds, rest.dropWhile isDigitOrComma)
  | _ => none

/-- Optionally match `\s*-\s*\$[\d,]+` at a position. -/
def salaryRangePartAt (cs : List Char) : Option (List Char × List Char) :=
  let ws1 := cs.takeWhile isWsChar
  match cs.dropWhile isWsChar with
  | '-' :: r1 =>
    let ws2 := r1.takeWhile isWsChar
    match salaryCoreAt (r1.dropWhile isWsChar) with
    | some (core, rest) => some (ws1 ++ '-' :: ws2 ++ core, rest)
    | none => none
  | _ => none

/-- Optionally match `\s*(?:per|/)\s*(?:year|hour|month)`. -/
def salaryUnitPartAt (cs : List Char) : Option (List Char) :=
  let ws1 := cs.takeWhile isWsChar
  let r1 := cs.dropWhile isWsChar
  let sep : Option (List Char × List Char) :=
    match takeLit "per".data r1 with
    | some r => some ("per".data, r)
    | none =>
      match takeLit "/".data r1 with
      | some r => some ("/".data, r)
      | none => none
  match sep with
  | none => none
  | some (sepTxt, r2) =>
    let ws2 := r2.takeWhile isWsChar
    let r3 := r2.dropWhile isWsChar
    let unit : Option (List Char) :=
      match takeLit "year".data r3 with
      | some _ => some "year".data
      | none =>
        match takeLit "hour".data r3 with
        | some _ => some "hour".data
        | none =>
          match takeLit "month".data r3 with
          | some _ => some "month".data
          | none => none
    match unit with
    | none => none
    | some u => some (ws1 ++ sepTxt ++ ws2 ++ u)

/-- Full salary pattern at one position. -/
def salaryPatAt (cs : List Char) : Option (List Char) :=
  match salaryCoreAt cs with
  | none => none
  | some (core, rest) =>
    let (rangeTxt, rest2) :=
      match salaryRangePartAt rest with
      | some (t, r) => (t, r)
      | none => ([], rest)
    let unitTxt :=
      match salaryUnitPartAt rest2 with
      | some t => t
      | none => []
    some (core ++ rangeTxt ++ unitTxt)

/-- `re.search` of the salary pattern: leftmost position match. -/
def searchSalary : List Char → Option String
  | [] => none
  | c :: cs =>
    match salaryPatAt (c :: cs) with
    | some t => some ⟨t⟩
    | none => searchSalary cs

/-- The dict returned by `extract_job_details` (lines 783-824): six
keys initialised to `None`; `company_size` is never assigned in the
source. -/
structure JobDetails where
  job_type : Option String
  seniority_level : Option String
  company_size : Option String
  industry : Option String
  skills_required : Option String
  salary_range : Option String
deriving DecidableEq

/-- `extract_job_details(soup)` over the query results carried by the
page. -/
def extract_job_details (soup : Soup) : JobDetails :=
  let job_type := soup.jobTypeMatch.map stripStr
  let seniority_level := soup.seniorityMatch.map stripStr
  let skills_required : Option String :=
    match soup.skillsSection with
    | none => none
    | some texts =>
      let skills := texts.filter fun t => t ≠ ""
      if skills = [] then none else some (joinCommaSpace (skills.take 10))
  let salary_range : Option String :=
    match soup.salaryMatch with
    | none => none
    | some s => searchSalary s.data
  let industry := soup.industryMatch.map stripStr
  { job_type := job_type, seniority_level := seniority_level,
    company_size := none, industry := industry,
    skills_required := skills_required, salary_range := salary_range }

/-- Outcome of the direct job-page fetch in `get_detailed_job_info`:
the parsed page, a `requests` network error, or any other exception. -/
inductive PageFetch where
  | ok (soup : Soup)
  | reqError
  | otherExn
deriving DecidableEq

/-- Outcome of the API-endpoint fallback: a JSON response (whose
`description.text`, when the `description` key is present, is the
fallback description), a non-JSON response parsed as HTML, or any
exception inside the fallback block. -/
inductive ApiFetch where
  | okJson (descText : Option String)
  | okHtml (soup : Soup)
  | fail
deriving DecidableEq

/-- The fixed placeholder written on total failure. -/
def couldNotFetch : String := "Could not fetch job description"

/-- `get_detailed_job_info(basic_job)` (lines 613-691).  The URL
clean-up (lines 626-631) only affects which URL is requested, which
the fetch outcome already reflects.  The function is total: every
exception path of the source ends in a returned record. -/
def get_detailed_job_info (basic_job : JobRecord) (pf : PageFetch)
    (af : ApiFetch) : JobRecord :=
  if ¬ truthyOptStr basic_job.link then basic_job
  else
    match pf with
    | .ok soup =>
      let d := extract_job_details soup
      let j :=
        { basic_job with
          job_description := some (extract_job_description soup),
          job_type := d.job_type, seniority_level := d.seniority_level,
          company_size := d.company_size, industry := d.industry,
          skills_required := d.skills_required,
          salary_range := d.salary_range }
      if j.applicants = none then
        { j with applicants := get_linkedin_applicant_count_from_soup soup.text }
      else j
    | .reqError =>
      match basic_job.job_id with
      | some _ =>
        match af with
        | .okJson (some t) => { basic_job with job_description := some t }
        | .okJson none => basic_job
        | .okHtml soup =>
          { basic_job with
            job_description := some (extract_job_description soup) }
        | .fail => { basic_job with job_description := some couldNotFetch }
      | none => { basic_job with job_description := some couldNotFetch }
    | .otherExn => { basic_job with job_description := some couldNotFetch }

/-! ## Listing search loops

`search_single_location` (lines 262-407), `search_linkedin_jobs`
(lines 200-260), `search_single_location_basic` (lines 451-547) and
`search_linkedin_jobs_basic` (lines 409-449).

Each iteration of a page loop performs exactly one HTTP request; the
environment supplies the outcome of each successive request as a
finite trace (list) of `PageResultD`/`PageResultB` values, consumed in
order (across endpoints and locations, in request order).  When the
trace is exhausted the loop stops, which models an environment that
eventually stops producing pages; all properties proved below hold for
every finite trace.  The `start` pagination counter only selects which
page is requested, which the trace already reflects, so it is not
tracked.  The random sleeps affect no data. -/

/-- Response to one request of the detailed-mode loop:
HTTP 429 (`response.status_code == 429`), a parsed page with its
extracted job cards (possibly none), a `requests` exception (whose
message may or may not contain "429"), or any other exception. -/
inductive PageResultD where
  | http429
  | okCards (cards : List JobCard)
  | reqError (msg429 : Bool)
  | otherExn
deriving DecidableEq

/-- The per-card body of the detailed-mode page loop
(lines 350-373): extract with `fetch_details=False`, skip `"N/A"`
titles and irrelevant titles, admit when the applicant count is
unknown or within the cap, and break out when the per-location budget
is reached.  Returns (jobs_found, page_jobs_found, accumulated jobs). -/
def processCards (keywords : String) (max_applicants budget : Nat) :
    List JobCard → Nat → Nat → List JobRecord → Nat × Nat × List JobRecord
  | [], jf, pjf, acc => (jf, pjf, acc)
  | card :: rest, jf, pjf, acc =>
    match extract_linkedin_job_data card with
    | none => processCards keywords max_applicants budget rest jf pjf acc
    | some jd =>
      if jd.title ≠ "N/A" then
        if is_job_relevant jd.title keywords then
          if (match jd.applicants with
              | none => true
              | some a => a ≤ max_applicants) then
            let jf' := jf + 1
            let acc' := acc ++ [jd]
            if budget ≤ jf' then (jf', pjf + 1, acc')
            else processCards keywords max_applicants budget rest jf' (pjf + 1) acc'
          else processCards keywords max_applicants budget rest jf pjf acc
        else processCards keywords max_applicants budget rest jf pjf acc
      else processCards keywords max_applicants budget rest jf pjf acc

/-- One endpoint's `while` loop in `search_single_location`
(lines 312-400).  State: trace, jobs_found, accumulated jobs,
consecutive pages without results (`current_pages_without_results`,
reset per endpoint, cap 2), rate-limit errors (shared across
endpoints, cap 3).  Returns (jobs_found, jobs, rate_limit_errors,
remaining trace). -/
def pageLoopD (keywords : String) (max_applicants budget : Nat) :
    List PageResultD → Nat → List JobRecord → Nat → Nat →
    Nat × List JobRecord × Nat × List PageResultD
  | [], jf, acc, _, rle => (jf, acc, rle, [])
  | pr :: rest, jf, acc, cpw, rle =>
    if budget ≤ jf ∨ 2 ≤ cpw ∨ 3 ≤ rle then (jf, acc, rle, pr :: rest)
    else
      match pr with
      | .http429 => pageLoopD keywords max_applicants budget rest jf acc cpw (rle + 1)
      | .reqError true => pageLoopD keywords max_applicants budget rest jf acc cpw (rle + 1)
      | .reqError false =>
        if 2 ≤ cpw + 1 then (jf, acc, rle, rest)
        else pageLoopD keywords max_applicants budget rest jf acc (cpw + 1) rle
      | .otherExn => pageLoopD keywords max_applicants budget rest jf acc (cpw + 1) rle
      | .okCards cards =>
        if cards = [] then
          pageLoopD keywords max_applicants budget rest jf acc (cpw + 1) rle
        else
          match processCards keywords max_applicants budget cards jf 0 acc with
          | (jf', pjf, acc') =>
            pageLoopD keywords max_applicants budget rest jf' acc'
              (if pjf = 0 then cpw + 1 else 0) rle

/-- `search_single_location` (lines 262-407): run the page loop against
the two endpoints in turn; `jobs_found`, the accumulated jobs and the
rate-limit-error counter persist across endpoints, the second endpoint
is skipped when the first already found jobs or the rate-limit cap was
hit.  Returns the location's jobs and the remaining trace. -/
def search_single_location (keywords : String)
    (max_applicants max_results_per_location : Nat)
    (trace : List PageResultD) : List JobRecord × List PageResultD :=
  match pageLoopD keywords max_applicants max_results_per_location trace 0 [] 0 0 with
  | (jf1, acc1, rle1, tr1) =>
    if 0 < jf1 then (acc1, tr1)
    else if 3 ≤ rle1 then (acc1, tr1)
    else
      match pageLoopD keywords max_applicants max_results_per_location tr1 jf1 acc1 0 rle1 with
      | (_, acc2, _, tr2) => (acc2, tr2)

/-- The location argument of the search entry points: a list of
locations (the "Canada" case) or a single string (possibly empty). -/
inductive LocationArg where
  | strLoc (s : String)
  | listLoc (ls : List String)
deriving DecidableEq

/-- `locations_to_search` computed at the top of both entry points:
a list is used as is, a truthy string becomes a one-element list, and
an empty string becomes `[""]` ("any location").  The source never
produces an empty list from a string; passing an empty list would make
Python raise `ZeroDivisionError` on the budget computation, a run
producing no result set. -/
def locations_to_search : LocationArg → List String
  | .strLoc s => if s ≠ "" then [s] else [""]
  | .listLoc ls => ls

/-- The per-location loop of `search_linkedin_jobs` (lines 233-244):
concatenate each location's jobs and truncate to `max_results` as soon
as the accumulated list reaches it. -/
def searchLocationsLoopD (keywords : String) (max_applicants budget max_results : Nat) :
    List String → List PageResultD → List JobRecord → List JobRecord
  | [], _, basic_jobs => basic_jobs
  | _loc :: restLocs, trace, basic_jobs =>
    match search_single_location keywords max_applicants budget trace with
    | (location_jobs, trace') =>
      let basic_jobs' := basic_jobs ++ location_jobs
      if max_results ≤ basic_jobs'.length then basic_jobs'.take max_results
      else searchLocationsLoopD keywords max_applicants budget max_results restLocs trace' basic_jobs'

/-- `search_linkedin_jobs` (lines 200-260), detailed mode, for a fresh
searcher (`self.results == []`): phase 1 collects `basic_jobs` across
locations with per-location budget `max_results // len(locations)`;
phase 2 appends `get_detailed_job_info` of each basic job to the
results, with the two fetch outcomes of job `i` supplied by `dpf i`
and `daf i`.  Returns the final `self.results`. -/
def search_linkedin_jobs (keywords : String) (location : LocationArg)
    (max_applicants max_results : Nat) (trace : List PageResultD)
    (dpf : Nat → PageFetch) (daf : Nat → ApiFetch) : List JobRecord :=
  let locs := locations_to_search location
  let budget := max_results / locs.length
  let basic_jobs := searchLocationsLoopD keywords max_applicants budget max_results locs trace []
  basic_jobs.enum.map fun p => get_detailed_job_info p.2 (dpf p.1) (daf p.1)

/-- Response to one request of the basic-mode loop.  The basic loop
has no dedicated 429 branch: any HTTP error surfaces through
`raise_for_status` as a `requests` exception. -/
inductive PageResultB where
  | okCards (cards : List JobCard)
  | reqError
  | otherExn
deriving DecidableEq

/-- The seven placeholder strings the basic mode writes into each
record before filtering (lines 496-502). -/
def basicPlaceholders (jd : JobRecord) : JobRecord :=
  { jd with
    job_description := some "Use detailed mode to get full job descriptions",
    job_type := some "Not fetched in basic mode",
    seniority_level := some "Not fetched in basic mode",
    company_size := some "Not fetched in basic mode",
    industry := some "Not fetched in basic mode",
    skills_required := some "Not fetched in basic mode",
    salary_range := some "Not fetched in basic mode" }

/-- The per-card body of the basic-mode page loop (lines 489-521).
Unlike the detailed loop there is no `"N/A"` title check.  Appends
admitted records to the global results list. -/
def processCardsB (keywords : String) (max_applicants budget : Nat) :
    List JobCard → Nat → Nat → List JobRecord → Nat × Nat × List JobRecord
  | [], jf, pjf, results => (jf, pjf, results)
  | card :: rest, jf, pjf, results =>
    match extract_linkedin_job_data card with
    | none => processCardsB keywords max_applicants budget rest jf pjf results
    | some jd =>
      if is_job_relevant jd.title keywords then
        let jd' := basicPlaceholders jd
        if (match jd'.applicants with
            | none => true
            | some a => a ≤ max_applicants) then
          let jf' := jf + 1
          let results' := results ++ [jd']
          if budget ≤ jf' then (jf', pjf + 1, results')
          else processCardsB keywords max_applicants budget rest jf' (pjf + 1) results'
        else processCardsB keywords max_applicants budget rest jf pjf results
      else processCardsB keywords max_applicants budget rest jf pjf results

/-- The `while` loop of `search_single_location_basic` (lines 470-543):
single endpoint, `pages_without_results` cap 3.  Returns the updated
global results and the remaining trace. -/
def pageLoopB (keywords : String) (max_applicants budget : Nat) :
    List PageResultB → Nat → List JobRecord → Nat →
    List JobRecord × List PageResultB
  | [], _, results, _ => (results, [])
  | pr :: rest, jf, results, pwr =>
    if budget ≤ jf ∨ 3 ≤ pwr then (results, pr :: rest)
    else
      match pr with
      | .reqError =>
        if 3 ≤ pwr + 1 then (results, rest)
        else pageLoopB keywords max_applicants budget rest jf results (pwr + 1)
      | .otherExn => pageLoopB keywords max_applicants budget rest jf results (pwr + 1)
      | .okCards cards =>
        if cards = [] then
          pageLoopB keywords max_applicants budget rest jf results (pwr + 1)
        else
          match processCardsB keywords max_applicants budget cards jf 0 results with
          | (jf', pjf, results') =>
            pageLoopB keywords max_applicants budget rest jf' results'
              (if pjf = 0 then pwr + 1 else 0)

/-- The per-location loop of `search_linkedin_jobs_basic`
(lines 437-447): run each location's basic loop against the shared
results list and truncate to `max_results` as soon as the results
reach it. -/
def searchLocationsLoopB (keywords : String) (max_applicants budget max_results : Nat) :
    List String → List PageResultB → List JobRecord → List JobRecord
  | [], _, results => results
  | _loc :: restLocs, trace, results =>
    match pageLoopB keywords max_applicants budget trace 0 results 0 with
    | (results', trace') =>
      if max_results ≤ results'.length then results'.take max_results
      else searchLocationsLoopB keywords max_applicants budget max_results restLocs trace' results'

/-- `search_linkedin_jobs_basic` (lines 409-449) for a fresh searcher:
returns the final `self.results`. -/
def search_linkedin_jobs_basic (keywords : String) (location : LocationArg)
    (max_applicants max_results : Nat) (trace : List PageResultB) : List JobRecord :=
  let locs := locations_to_search location
  let budget := max_results / locs.length
  searchLocationsLoopB keywords max_applicants budget max_results locs trace []

/-! ## Result sink

`save_results` (lines 907-971).  Only the empty-results guard and the
file-touch behaviour matter to the stated properties: the metadata and
row contents are plain serialisation of the inputs. -/

/-- A file the sink attempts to open for writing. -/
inductive FileWrite where
  | csvFile
  | jsonFile
deriving DecidableEq

/-- Success of the two write attempts (any exception during a write is
caught and only recorded in the returned flag). -/
structure SaveEnv where
  csvOk : Bool
  jsonOk : Bool
deriving DecidableEq

/-- `save_results(filepaths, search_params)`: with no results, print
and return `False` before any file is opened; otherwise attempt the
CSV and the JSON file in turn and return whether both succeeded.  The
second component lists the files the sink attempted to open. -/
def save_results (results : List JobRecord) (env : SaveEnv) :
    Bool × List FileWrite :=
  if results = [] then (false, [])
  else (env.csvOk && env.jsonOk, [FileWrite.csvFile, FileWrite.jsonFile])

/-! ## Workflow orchestrator

`run_workflow.py`: `WorkflowOrchestrator` steps 1-4 and `run`
(lines 178-483).  The state file's free-form `data` map is modelled by
its three keys the steps use (`dict.get` semantics via `Option`);
subprocess calls, file-system probes and interactive confirmations are
environment outcomes. -/

/-- The persisted workflow state. -/
structure WorkflowState where
  completed_steps : List String
  data_job_search_output : Option String
  data_created_folders : Option (List String)
  data_job_title : Option String
deriving DecidableEq

/-- The configuration fields the steps consult (per-step `enabled`,
per-step confirmation policy, `continue_on_error`). -/
structure WorkflowConfig where
  job_search_enabled : Bool
  folder_creation_enabled : Bool
  ai_tailoring_enabled : Bool
  build_enabled : Bool
  confirm_after_search : Bool
  confirm_after_folder_creation : Bool
  confirm_after_tailoring : Bool
  confirm_after_build : Bool
  continue_on_error : Bool
deriving DecidableEq

/-- Environment outcomes for one workflow run. -/
structure WorkflowEnv where
  /-- The job-search subprocess exits 0. -/
  searchCmdOk : Bool
  /-- Most recent JSON file under the search output directory after
  step 1's subprocess (`none`: directory missing or no files, which
  raises `RuntimeError`).  Reading it back for the step-1 summary uses
  the file just written. -/
  searchOutput : Option String
  /-- The folder-creation subprocess exits 0. -/
  folderCmdOk : Bool
  /-- `metadata.job_title` read from the step-1 output file in step 2
  (`none`: the read or lookup raises). -/
  folderJsonTitle : Option String
  /-- The per-title resume directory exists after folder creation. -/
  titleDirExists : Bool
  /-- Directories under the title directory modified within the last
  minute, in iteration order. -/
  createdFolders : List String
  /-- The AI-tailoring subprocess exits 0 for a given folder. -/
  tailorOk : String → Bool
  /-- The PDF-build subprocess exits 0 for a given folder (consulted
  only when a job title is available; a missing `job_title` makes the
  subprocess call raise, handled like a failing command). -/
  buildOk : String → Bool
  confirmSearch : Bool
  confirmFolders : Bool
  confirmTailoring : Bool

/-- Result of one step call: normal return with a value, `sys.exit(0)`
after a declined confirmation, or an exception propagating to `run`'s
handler.  `executed` records whether the step body ran (as opposed to
the already-completed or disabled early returns). -/
inductive StepResult (α : Type) where
  | ok (val : α) (st : WorkflowState) (executed : Bool)
  | exit0 (st : WorkflowState) (executed : Bool)
  | fail (st : WorkflowState) (executed : Bool)
deriving DecidableEq

/-- `step1_job_search` (lines 178-251).  When already completed, the
recorded output path is reused (`Path(None)` on a missing record
raises `TypeError`).  When the body runs: subprocess, locate the
newest output file, append the step name, persist, then optionally
confirm (declining exits 0). -/
def step1_job_search (cfg : WorkflowConfig) (env : WorkflowEnv)
    (st : WorkflowState) : StepResult (Option String) :=
  if "step1_job_search" ∈ st.completed_steps then
    match st.data_job_search_output with
    | some p => .ok (some p) st false
    | none => .fail st false
  else if ¬ cfg.job_search_enabled then .ok none st false
  else if ¬ env.searchCmdOk then .fail st true
  else
    match env.searchOutput with
    | none => .fail st true
    | some out =>
      let st' : WorkflowState :=
        { st with
          completed_steps := st.completed_steps ++ ["step1_job_search"],
          data_job_search_output := some out }
      if cfg.confirm_after_search then
        if env.confirmSearch then .ok (some out) st' true else .exit0 st' true
      else .ok (some out) st' true

/-- `step2_folder_creation` (lines 253-323).  When already completed,
`data.get('created_folders', [])` is reused.  When the body runs:
subprocess, read the job title from the step-1 output, detect the
created folders (a missing title directory returns `[]` without
marking the step complete), append the step name, persist, optionally
confirm.  The `job_search_output` argument only feeds the subprocess
and the JSON read, both reflected by the environment. -/
def step2_folder_creation (cfg : WorkflowConfig) (env : WorkflowEnv)
    (st : WorkflowState) : StepResult (List String) :=
  if "step2_folder_creation" ∈ st.completed_steps then
    .ok (st.data_created_folders.getD []) st false
  else if ¬ cfg.folder_creation_enabled then .ok [] st false
  else if ¬ env.folderCmdOk then .fail st true
  else
    match env.folderJsonTitle with
    | none => .fail st true
    | some title =>
      if ¬ env.titleDirExists then .ok [] st true
      else
        let folders := env.createdFolders
        let st' : WorkflowState :=
          { st with
            completed_steps := st.completed_steps ++ ["step2_folder_creation"],
            data_created_folders := some folders,
            data_job_title := some title }
        if cfg.confirm_after_folder_creation then
          if env.confirmFolders then .ok folders st' true else .exit0 st' true
        else .ok folders st' true

/-- The per-folder subprocess loop of steps 3 and 4 (lines 345-365 and
397-419): a folder's failure is swallowed when `continue_on_error` is
set and aborts the step otherwise.  Returns whether the loop completed
without an uncaught failure. -/
def runFolderCmds (cmdOk : String → Bool) (continue_on_error : Bool) :
    List String → Bool
  | [] => true
  | f :: fs =>
    if cmdOk f then runFolderCmds cmdOk continue_on_error fs
    else if continue_on_error then runFolderCmds cmdOk continue_on_error fs
    else false

/-- `step3_ai_tailoring` (lines 325-375). -/
def step3_ai_tailoring (cfg : WorkflowConfig) (env : WorkflowEnv)
    (st : WorkflowState) (resume_folders : List String) : StepResult Unit :=
  if "step3_ai_tailoring" ∈ st.completed_steps then .ok () st false
  else if ¬ cfg.ai_tailoring_enabled then .ok () st false
  else if ¬ runFolderCmds env.tailorOk cfg.continue_on_error resume_folders then
    .fail st true
  else
    let st' : WorkflowState :=
      { st with completed_steps := st.completed_steps ++ ["step3_ai_tailoring"] }
    if cfg.confirm_after_tailoring then
      if env.confirmTailoring then .ok () st' true else .exit0 st' true
    else .ok () st' true

/-- `step4_build_pdfs` (lines 377-435).  The build command embeds
`data.get('job_title')`; when it is missing every per-folder call
raises, handled like a failed command.  The `after_build`
confirmation block only logs, so the step never exits. -/
def step4_build_pdfs (cfg : WorkflowConfig) (env : WorkflowEnv)
    (st : WorkflowState) (resume_folders : List String) : StepResult Unit :=
  if "step4_build_pdfs" ∈ st.completed_steps then .ok () st false
  else if ¬ cfg.build_enabled then .ok () st false
  else
    let cmdOk : String → Bool := fun f =>
      match st.data_job_title with
      | none => false
      | some _ => env.buildOk f
    if ¬ runFolderCmds cmdOk cfg.continue_on_error resume_folders then
      .fail st true
    else
      let st' : WorkflowState :=
        { st with completed_steps := st.completed_steps ++ ["step4_build_pdfs"] }
      .ok () st' true

/-- `run`'s guard for invoking step 1:
`not resume_from or resume_from in ['step1', 'beginning']`. -/
def step1Cond (rf : Option String) : Bool :=
  rf.isNone || rf == some "step1" || rf == some "beginning"

/-- `run`'s guard for invoking step 2. -/
def step2Cond (rf : Option String) : Bool :=
  rf.isNone || rf == some "step1" || rf == some "step2" || rf == some "beginning"

/-- `run`'s guard for invoking step 3. -/
def step3Cond (rf : Option String) : Bool :=
  rf.isNone || rf == some "step1" || rf == some "step2" || rf == some "step3" ||
    rf == some "beginning"

/-- `run`'s guard for invoking step 4. -/
def step4Cond (rf : Option String) : Bool :=
  rf.isNone || rf == some "step1" || rf == some "step2" || rf == some "step3" ||
    rf == some "step4" || rf == some "beginning"

/-- Observable outcome of one `run` invocation: the final persisted
state, the step bodies that were executed (in order), the folder list
each of steps 3 and 4 received when its body ran, and the process exit
code (`none` for a normal return out of `run`). -/
structure RunResult where
  state : WorkflowState
  executed : List String
  step3Folders : Option (List String)
  step4Folders : Option (List String)
  exitCode : Option Nat
deriving DecidableEq

/-- The step-4 section of `run` (lines 468-470). -/
def runPhase4 (cfg : WorkflowConfig) (env : WorkflowEnv) (rf : Option String)
    (folders : List String) (st : WorkflowState) : RunResult :=
  if step4Cond rf then
    match step4_build_pdfs cfg env st folders with
    | .ok _ st' ex =>
      ⟨st', if ex then ["step4_build_pdfs"] else [], none,
        if ex then some folders else none, none⟩
    | .exit0 st' ex =>
      ⟨st', if ex then ["step4_build_pdfs"] else [], none,
        if ex then some folders else none, some 0⟩
    | .fail st' ex =>
      ⟨st', if ex then ["step4_build_pdfs"] else [], none,
        if ex then some folders else none, some 1⟩
  else ⟨st, [], none, none, none⟩

/-- The step-3 and step-4 sections of `run` (lines 464-470). -/
def runPhase3 (cfg : WorkflowConfig) (env : WorkflowEnv) (rf : Option String)
    (folders : List String) (st : WorkflowState) : RunResult :=
  if step3Cond rf then
    match step3_ai_tailoring cfg env st folders with
    | .ok _ st' ex =>
      let r := runPhase4 cfg env rf folders st'
      ⟨r.state, (if ex then ["step3_ai_tailoring"] else []) ++ r.executed,
        if ex then some folders else none, r.step4Folders, r.exitCode⟩
    | .exit0 st' ex =>
      ⟨st', if ex then ["step3_ai_tailoring"] else [],
        if ex then some folders else none, none, some 0⟩
    | .fail st' ex =>
      ⟨st', if ex then ["step3_ai_tailoring"] else [],
        if ex then some folders else none, none, some 1⟩
  else runPhase4 cfg env rf folders st

/-- The step-2 section of `run` (lines 454-462) followed by the later
phases: obtain the resume folders (running step 2 or reusing
`data.created_folders`), return early when there are none. -/
def runPhase2 (cfg : WorkflowConfig) (env : WorkflowEnv) (rf : Option String)
    (st : WorkflowState) : RunResult :=
  if step2Cond rf then
    match step2_folder_creation cfg env st with
    | .ok folders st' ex =>
      let exec2 := if ex then ["step2_folder_creation"] else []
      if folders = [] then ⟨st', exec2, none, none, none⟩
      else
        let r := runPhase3 cfg env rf folders st'
        ⟨r.state, exec2 ++ r.executed, r.step3Folders, r.step4Folders, r.exitCode⟩
    | .exit0 st' ex =>
      ⟨st', if ex then ["step2_folder_creation"] else [], none, none, some 0⟩
    | .fail st' ex =>
      ⟨st', if ex then ["step2_folder_creation"] else [], none, none, some 1⟩
  else
    let folders := st.data_created_folders.getD []
    if folders = [] then ⟨st, [], none, none, none⟩
    else runPhase3 cfg env rf folders st

/-- `WorkflowOrchestrator.run` (lines 437-483).  Exceptions raised by
a step are caught by `run`'s handler and exit the process with code 1;
`sys.exit(0)` from a declined confirmation propagates (the handler
catches only `Exception`).  When step 1 is bypassed by `resume_from`,
`Path(data.get('job_search_output'))` raises on a missing record,
which the handler turns into exit code 1. -/
def runWorkflow (cfg : WorkflowConfig) (env : WorkflowEnv)
    (st : WorkflowState) (rf : Option String) : RunResult :=
  if step1Cond rf then
    match step1_job_search cfg env st with
    | .ok out st' ex =>
      let exec1 := if ex then ["step1_job_search"] else []
      match out with
      | none => ⟨st', exec1, none, none, none⟩
      | some _ =>
        let r := runPhase2 cfg env rf st'
        ⟨r.state, exec1 ++ r.executed, r.step3Folders, r.step4Folders, r.exitCode⟩
    | .exit0 st' ex =>
      ⟨st', if ex then ["step1_job_search"] else [], none, none, some 0⟩
    | .fail st' ex =>
      ⟨st', if ex then ["step1_job_search"] else [], none, none, some 1⟩
  else
    match st.data_job_search_output with
    | none => ⟨st, [], none, none, some 1⟩
    | some _ => runPhase2 cfg env rf st

/-! ## Theorems -/

/-- The integer form of the 60% threshold coincides with the rational
"fraction of words present" form. -/
theorem ratThreshold (m n : Nat) :
    (5 * m ≥ 3 * n) ↔ ((m : ℚ) ≥ (n : ℚ) * (3 / 5)) := by
  constructor
  · intro h
    have h' : (3 * n : ℚ) ≤ 5 * m := by exact_mod_cast h
    rw [ge_iff_le]
    linarith
  · intro h
    rw [ge_iff_le] at h
    have h' : (3 * n : ℚ) ≤ 5 * m := by linarith
    exact_mod_cast h'

/-- No numeric applicant pattern matches anywhere in the lowercased
text (hypothesis form for the qualitative-fallback branches). -/
def noCountPattern (raw : String) : Bool :=
  let t := (lowerStr raw).data
  (findLeftmost pat1At t).isNone && (findLeftmost pat2At t).isNone &&
    (findLeftmost pat3At t).isNone && (findLeftmost pat4At t).isNone

/-- C2, counterexample: on the page text "Be among the first 25
applicants" the extractor returns 25 — the substring "25 applicants"
matches the first pattern `(\d+)\s+applicants?` before the qualitative
fallback is ever consulted — refuting the claim that it returns the
fixed low estimate 5. -/
theorem C2_counterexample :
    get_linkedin_applicant_count_from_soup "Be among the first 25 applicants" ≠ some 5 ∧
    get_linkedin_applicant_count_from_soup "Be among the first 25 applicants" = some 25 := by
  decide

/-- C2, amended: a page text containing "Be among the first 25
applicants" yields 25 via the generic "n applicants" pattern, not the
fixed low estimate; the fixed low estimate 5 is returned exactly when
no numeric pattern matches but the qualitative "be among the first"
phrase co-occurs with "applicant"; with no pattern and no qualitative
phrase the result is unknown (`none`). -/
theorem C2_amended_theorem :
    get_linkedin_applicant_count_from_soup "Be among the first 25 applicants" = some 25 ∧
    (∀ t : String, noCountPattern t = true →
      strContains (lowerStr t) "be among the first" = true →
      strContains (lowerStr t) "applicant" = true →
      get_linkedin_applicant_count_from_soup t = some 5) ∧
    (∀ t : String, noCountPattern t = true →
      (strContains (lowerStr t) "be among the first" &&
        strContains (lowerStr t) "applicant") = false →
      get_linkedin_applicant_count_from_soup t = none) := by
  refine ⟨by decide, ?_, ?_⟩
  · intro t hnp hq ha
    simp only [noCountPattern, Bool.and_eq_true, Option.isNone_iff_eq_none] at hnp
    obtain ⟨⟨⟨h1, h2⟩, h3⟩, h4⟩ := hnp
    simp only [strContains] at hq ha
    simp only [get_linkedin_applicant_count_from_soup, applicantCountFromText,
      h1, h2, h3, h4, hq, ha, Bool.and_self, if_true]
  · intro t hnp hqa
    simp only [noCountPattern, Bool.and_eq_true, Option.isNone_iff_eq_none] at hnp
    obtain ⟨⟨⟨h1, h2⟩, h3⟩, h4⟩ := hnp
    simp only [strContains] at hqa
    simp only [get_linkedin_applicant_count_from_soup, applicantCountFromText,
      h1, h2, h3, h4, hqa]
    rfl

/-- C2, witness for the amended theorem's quantified parts. -/
theorem C2_amended_witness :
    get_linkedin_applicant_count_from_soup "Be among the first applicants for this role" = some 5 ∧
    get_linkedin_applicant_count_from_soup "hello world" = none := by
  constructor
  · exact C2_amended_theorem.2.1 "Be among the first applicants for this role"
      (by decide) (by decide) (by decide)
  · exact C2_amended_theorem.2.2 "hello world" (by decide) (by decide)

/-- C4: the relevance filter.  (i) For a query containing the
hard-coded phrase "corporate communications", every title containing
"talent manager" is rejected (the deny list is consulted before the
allow list, so this holds even when the title also contains
"communications").  (ii) For every other query with at least one word,
a title sharing none of the query words is rejected.  (iii) For every
other query, a title is accepted exactly when at least 60% of the
query words appear as substrings of some title word. -/
theorem C4_relevance_filter :
    (∀ q t : String, strContains (lowerStr q) "corporate communications" = true →
      strContains (lowerStr t) "talent manager" = true →
      is_job_relevant t q = false) ∧
    (∀ q t : String, strContains (lowerStr q) "corporate communications" = false →
      0 < (splitWs (lowerStr q)).length →
      matchesCount (splitWs (lowerStr q)) (splitWs (lowerStr t)) = 0 →
      is_job_relevant t q = false) ∧
    (∀ q t : String, strContains (lowerStr q) "corporate communications" = false →
      (is_job_relevant t q = true ↔ fracWordsPresent t q)) := by
  refine ⟨?_, ?_, ?_⟩
  · intro q t hq ht
    have hmem : irrelevant_keywords.any (fun k => strContains (lowerStr t) k) = true := by
      rw [List.any_eq_true]
      exact ⟨"talent manager", by decide, ht⟩
    simp only [is_job_relevant, hq, if_true, hmem]
  · intro q t hq hn hm
    simp only [is_job_relevant, hq, Bool.false_eq_true, if_false, hm]
    simp only [decide_eq_false_iff_not, not_le]
    omega
  · intro q t hq
    simp only [is_job_relevant, hq, Bool.false_eq_true, if_false,
      decide_eq_true_eq, fracWordsPresent]
    exact ratThreshold _ _

/-- C4, witness: the three parts at concrete inputs. -/
theorem C4_relevance_filter_witness :
    is_job_relevant "Talent Manager of Communications" "Corporate Communications" = false ∧
    is_job_relevant "Plumber" "data scientist" = false ∧
    (is_job_relevant "Data Scientist" "data scientist" = true ↔
      fracWordsPresent "Data Scientist" "data scientist") := by
  refine ⟨?_, ?_, ?_⟩
  · exact C4_relevance_filter.1 "Corporate Communications"
      "Talent Manager of Communications" (by decide) (by decide)
  · exact C4_relevance_filter.2.1 "data scientist" "Plumber"
      (by decide) (by decide) (by decide)
  · exact C4_relevance_filter.2.2 "data scientist" "Data Scientist" (by decide)

/-- C5: when the direct page fetch fails with a network error and the
API fallback is unavailable (no job id) or fails, `get_detailed_job_info`
returns its input record with only the description replaced by the
fixed placeholder.  The embedding is a total function: every exception
path of the source ends in a returned record, so nothing escapes this
boundary. -/
theorem C5_detail_total_failure (job : JobRecord) (af : ApiFetch)
    (hlink : truthyOptStr job.link = true)
    (hboth : job.job_id = none ∨ af = ApiFetch.fail) :
    get_detailed_job_info job .reqError af =
      { job with job_description := some couldNotFetch } := by
  rcases hboth with hid | haf
  · simp [get_detailed_job_info, hlink, hid]
  · subst haf
    cases hid : job.job_id <;> simp [get_detailed_job_info, hlink, hid]

/-- C5, witness: a concrete record sent through the double-failure
path. -/
def exJobC5 : JobRecord :=
  { title := "Engineer", company := "Acme", location := "Toronto",
    link := some "https://www.linkedin.com/jobs/view/99/",
    job_id := some "99", applicants := none, posting_date := some "2025-01-01",
    source := "LinkedIn", scraped_at := "t0", job_description := none,
    job_type := none, seniority_level := none, company_size := none,
    industry := none, skills_required := none, salary_range := none }

theorem C5_detail_total_failure_witness :
    get_detailed_job_info exJobC5 .reqError .fail =
      { exJobC5 with job_description := some couldNotFetch } :=
  C5_detail_total_failure exJobC5 .fail (by decide) (Or.inr rfl)

/-- C8: the detail-fetch step is frame-preserving on the identity
fields — title, company, location, link, job id, posting date, source
and scrape timestamp of the returned record equal those of the input,
on every fetch outcome — and a known applicant count is never
overwritten (the count is filled only when previously unknown). -/
theorem C8_detail_frame (job : JobRecord) (pf : PageFetch) (af : ApiFetch) :
    (get_detailed_job_info job pf af).title = job.title ∧
    (get_detailed_job_info job pf af).company = job.company ∧
    (get_detailed_job_info job pf af).location = job.location ∧
    (get_detailed_job_info job pf af).link = job.link ∧
    (get_detailed_job_info job pf af).job_id = job.job_id ∧
    (get_detailed_job_info job pf af).posting_date = job.posting_date ∧
    (get_detailed_job_info job pf af).source = job.source ∧
    (get_detailed_job_info job pf af).scraped_at = job.scraped_at ∧
    (job.applicants ≠ none →
      (get_detailed_job_info job pf af).applicants = job.applicants) := by
  cases htr : truthyOptStr job.link with
  | false =>
    simp [get_detailed_job_info, htr]
  | true =>
    cases pf with
    | ok soup =>
      by_cases happ : job.applicants = none <;>
        simp [get_detailed_job_info, htr, happ]
    | reqError =>
      cases hid : job.job_id with
      | none => simp [get_detailed_job_info, htr, hid]
      | some v =>
        cases af with
        | okJson d => cases d <;> simp [get_detailed_job_info, htr, hid]
        | okHtml s => simp [get_detailed_job_info, htr, hid]
        | fail => simp [get_detailed_job_info, htr, hid]
    | otherExn => simp [get_detailed_job_info, htr]

/-- C8, witness: the frame equalities and the known-count clause at a
concrete record whose applicant count is already known. -/
def exJobC8 : JobRecord :=
  { exJobC5 with applicants := some 3 }

theorem C8_detail_frame_witness :
    (get_detailed_job_info exJobC8 (.ok
      { text := "over 100 applicants", descResult := "desc",
        jobTypeMatch := some "Full-time", seniorityMatch := none,
        skillsSection := none, salaryMatch := none, industryMatch := none })
      .fail).applicants = exJobC8.applicants :=
  (C8_detail_frame exJobC8 (.ok
      { text := "over 100 applicants", descResult := "desc",
        jobTypeMatch := some "Full-time", seniorityMatch := none,
        skillsSection := none, salaryMatch := none, industryMatch := none })
      .fail).2.2.2.2.2.2.2.2 (by decide)

/-- C10: with an empty accumulated results list, `save_results`
returns `False` and attempts no file write — the guard returns before
either output file is opened, so nothing on disk is created or
modified. -/
theorem C10_save_results_empty (env : SaveEnv) :
    save_results [] env = (false, []) := rfl

/-- The applicant-cap predicate of the spec: the count is unknown or
within the cap.  This is also exactly the admission test both page
loops apply (`applicants is None or applicants <= max_applicants`). -/
def capOk (cap : Nat) (r : JobRecord) : Bool :=
  match r.applicants with
  | none => true
  | some a => a ≤ cap

theorem all_of_take {p : JobRecord → Bool} {l : List JobRecord} {n : Nat}
    (h : l.all p = true) : (l.take n).all p = true := by
  rw [List.all_eq_true] at h ⊢
  exact fun x hx => h x ((List.take_sublist n l).subset hx)

theorem processCards_capOk (kw : String) (cap budget : Nat) :
    ∀ (cards : List JobCard) (jf pjf : Nat) (acc : List JobRecord),
      acc.all (capOk cap) = true →
      (processCards kw cap budget cards jf pjf acc).2.2.all (capOk cap) = true := by
  intro cards
  induction cards with
  | nil => intro jf pjf acc h; simpa [processCards] using h
  | cons card rest ih =>
    intro jf pjf acc h
    simp only [processCards]
    cases hx : extract_linkedin_job_data card with
    | none => exact ih jf pjf acc h
    | some jd =>
      dsimp only
      by_cases ht : jd.title ≠ "N/A"
      · rw [if_pos ht]
        by_cases hrel : is_job_relevant jd.title kw = true
        · rw [if_pos hrel]
          by_cases hcap : (match jd.applicants with
              | none => true
              | some a => a ≤ cap) = true
          · have hacc : (acc ++ [jd]).all (capOk cap) = true := by
              rw [List.all_append, h, List.all_cons]
              simpa [capOk] using hcap
            rw [if_pos hcap]
            by_cases hstop : budget ≤ jf + 1
            · rw [if_pos hstop]
              exact hacc
            · rw [if_neg hstop]
              exact ih _ _ _ hacc
          · rw [if_neg hcap]
            exact ih jf pjf acc h
        · rw [if_neg hrel]
          exact ih jf pjf acc h
      · rw [if_neg ht]
        exact ih jf pjf acc h

theorem pageLoopD_capOk (kw : String) (cap budget : Nat) :
    ∀ (trace : List PageResultD) (jf : Nat) (acc : List JobRecord) (cpw rle : Nat),
      acc.all (capOk cap) = true →
      (pageLoopD kw cap budget trace jf acc cpw rle).2.1.all (capOk cap) = true := by
  intro trace
  induction trace with
  | nil => intro jf acc cpw rle h; simpa [pageLoopD] using h
  | cons pr rest ih =>
    intro jf acc cpw rle h
    simp only [pageLoopD]
    by_cases hstop : budget ≤ jf ∨ 2 ≤ cpw ∨ 3 ≤ rle
    · simp only [hstop, if_true]
      exact h
    · simp only [hstop, if_false]
      cases pr with
      | http429 => exact ih _ _ _ _ h
      | reqError m =>
        cases m with
        | true => exact ih _ _ _ _ h
        | false =>
          by_cases hb : 2 ≤ cpw + 1
          · simp only [hb, if_true]
            exact h
          · simp only [hb, if_false]
            exact ih _ _ _ _ h
      | otherExn => exact ih _ _ _ _ h
      | okCards cards =>
        by_cases hc : cards = []
        · simp only [hc, if_true]
          exact ih _ _ _ _ h
        · simp only [hc, if_false]
          have hp := processCards_capOk kw cap budget cards jf 0 acc h
          rcases hpc : processCards kw cap budget cards jf 0 acc with ⟨jf', pjf, acc'⟩
          rw [hpc] at hp
          exact ih _ _ _ _ hp

theorem search_single_location_capOk (kw : String) (cap budget : Nat)
    (trace : List PageResultD) :
    (search_single_location kw cap budget trace).1.all (capOk cap) = true := by
  simp only [search_single_location]
  have h1 := pageLoopD_capOk kw cap budget trace 0 [] 0 0 (by simp)
  rcases hp1 : pageLoopD kw cap budget trace 0 [] 0 0 with ⟨jf1, acc1, rle1, tr1⟩
  rw [hp1] at h1
  by_cases hjf : 0 < jf1
  · simp only [hjf, if_true]
    exact h1
  · simp only [hjf, if_false]
    by_cases hrle : 3 ≤ rle1
    · simp only [hrle, if_true]
      exact h1
    · simp only [hrle, if_false]
      have h2 := pageLoopD_capOk kw cap budget tr1 jf1 acc1 0 rle1 h1
      rcases hp2 : pageLoopD kw cap budget tr1 jf1 acc1 0 rle1 with ⟨jf2, acc2, rle2, tr2⟩
      rw [hp2] at h2
      exact h2

theorem searchLocationsLoopD_capOk (kw : String) (cap budget maxR : Nat) :
    ∀ (locs : List String) (tr : List PageResultD) (basic : List JobRecord),
      basic.all (capOk cap) = true →
      (searchLocationsLoopD kw cap budget maxR locs tr basic).all (capOk cap) = true := by
  intro locs
  induction locs with
  | nil => intro tr basic h; simpa [searchLocationsLoopD] using h
  | cons loc rest ih =>
    intro tr basic h
    simp only [searchLocationsLoopD]
    have hl := search_single_location_capOk kw cap budget tr
    rcases hs : search_single_location kw cap budget tr with ⟨ljobs, tr'⟩
    rw [hs] at hl
    have hall : (basic ++ ljobs).all (capOk cap) = true := by
      rw [List.all_append, h, hl]
      rfl
    by_cases hge : maxR ≤ (basic ++ ljobs).length
    · simp only [hge, if_true]
      exact all_of_take hall
    · simp only [hge, if_false]
      exact ih tr' _ hall

theorem processCardsB_capOk (kw : String) (cap budget : Nat) :
    ∀ (cards : List JobCard) (jf pjf : Nat) (res : List JobRecord),
      res.all (capOk cap) = true →
      (processCardsB kw cap budget cards jf pjf res).2.2.all (capOk cap) = true := by
  intro cards
  induction cards with
  | nil => intro jf pjf res h; simpa [processCardsB] using h
  | cons card rest ih =>
    intro jf pjf res h
    simp only [processCardsB]
    cases hx : extract_linkedin_job_data card with
    | none => exact ih jf pjf res h
    | some jd =>
      dsimp only
      by_cases hrel : is_job_relevant jd.title kw = true
      · rw [if_pos hrel]
        by_cases hcap : (match (basicPlaceholders jd).applicants with
            | none => true
            | some a => a ≤ cap) = true
        · have hacc : (res ++ [basicPlaceholders jd]).all (capOk cap) = true := by
            rw [List.all_append, h, List.all_cons]
            simpa [capOk] using hcap
          rw [if_pos hcap]
          by_cases hstop : budget ≤ jf + 1
          · rw [if_pos hstop]
            exact hacc
          · rw [if_neg hstop]
            exact ih _ _ _ hacc
        · rw [if_neg hcap]
          exact ih jf pjf res h
      · rw [if_neg hrel]
        exact ih jf pjf res h

theorem pageLoopB_capOk (kw : String) (cap budget : Nat) :
    ∀ (trace : List PageResultB) (jf : Nat) (res : List JobRecord) (pwr : Nat),
      res.all (capOk cap) = true →
      (pageLoopB kw cap budget trace jf res pwr).1.all (capOk cap) = true := by
  intro trace
  induction trace with
  | nil => intro jf res pwr h; simpa [pageLoopB] using h
  | cons pr rest ih =>
    intro jf res pwr h
    simp only [pageLoopB]
    by_cases hstop : budget ≤ jf ∨ 3 ≤ pwr
    · simp only [hstop, if_true]
      exact h
    · simp only [hstop, if_false]
      cases pr with
      | reqError =>
        by_cases hb : 3 ≤ pwr + 1
        · simp only [hb, if_true]
          exact h
        · simp only [hb, if_false]
          exact ih _ _ _ h
      | otherExn => exact ih _ _ _ h
      | okCards cards =>
        by_cases hc : cards = []
        · simp only [hc, if_true]
          exact ih _ _ _ h
        · simp only [hc, if_false]
          have hp := processCardsB_capOk kw cap budget cards jf 0 res h
          rcases hpc : processCardsB kw cap budget cards jf 0 res with ⟨jf', pjf, res'⟩
          rw [hpc] at hp
          exact ih _ _ _ hp

theorem searchLocationsLoopB_capOk (kw : String) (cap budget maxR : Nat) :
    ∀ (locs : List String) (tr : List PageResultB) (res : List JobRecord),
      res.all (capOk cap) = true →
      (searchLocationsLoopB kw cap budget maxR locs tr res).all (capOk cap) = true := by
  intro locs
  induction locs with
  | nil => intro tr res h; simpa [searchLocationsLoopB] using h
  | cons loc rest ih =>
    intro tr res h
    simp only [searchLocationsLoopB]
    have hl := pageLoopB_capOk kw cap budget tr 0 res 0 h
    rcases hs : pageLoopB kw cap budget tr 0 res 0 with ⟨res', tr'⟩
    rw [hs] at hl
    by_cases hge : maxR ≤ res'.length
    · simp only [hge, if_true]
      exact all_of_take hl
    · simp only [hge, if_false]
      exact ih tr' res' hl

/-- C1, counterexample: a detailed-mode search with applicant cap 10
whose single listing is relevant and has an unknown listing-time
count; the detail fetch then fills in 50 applicants from the posting
page, and the final result set contains a record violating the cap. -/
def exC1Card : JobCard :=
  { titleElem := some "Data Scientist", companyElem := some "Acme",
    locationElem := some "Toronto",
    linkHref := some (some "https://www.linkedin.com/jobs/view/123/"),
    dateElem := some (some "2025-01-01"), nowIso := "t0",
    raisesError := false }

def exC1Soup : Soup :=
  { text := "50 applicants", descResult := "A long description",
    jobTypeMatch := none, seniorityMatch := none, skillsSection := none,
    salaryMatch := none, industryMatch := none }

theorem C1_counterexample :
    ¬ ((search_linkedin_jobs "data scientist" (.strLoc "Toronto") 10 50
        [.okCards [exC1Card]] (fun _ => .ok exC1Soup) (fun _ => .fail)).all
        (capOk 10) = true) := by
  decide

/-- C1, amended: the applicant cap is enforced at listing-filter time,
where the count is always unknown.  Hence in basic mode every record
of the final result set satisfies "unknown or within the cap", and in
detailed mode every record of the phase-1 listing set does; the
detail-fetch step of detailed mode may afterwards fill in a count
exceeding the cap without re-checking it (see the counterexample). -/
theorem C1_amended_theorem (kw : String) (loc : LocationArg) (cap R : Nat)
    (trB : List PageResultB) (trD : List PageResultD) :
    (search_linkedin_jobs_basic kw loc cap R trB).all (capOk cap) = true ∧
    (searchLocationsLoopD kw cap (R / (locations_to_search loc).length) R
      (locations_to_search loc) trD []).all (capOk cap) = true := by
  constructor
  · exact searchLocationsLoopB_capOk kw cap (R / (locations_to_search loc).length) R
      (locations_to_search loc) trB [] (by simp)
  · exact searchLocationsLoopD_capOk kw cap (R / (locations_to_search loc).length) R
      (locations_to_search loc) trD [] (by simp)

theorem searchLocationsLoopD_length_le (kw : String) (cap budget maxR : Nat) :
    ∀ (locs : List String) (tr : List PageResultD) (basic : List JobRecord),
      basic.length ≤ maxR →
      (searchLocationsLoopD kw cap budget maxR locs tr basic).length ≤ maxR := by
  intro locs
  induction locs with
  | nil => intro tr basic h; simpa [searchLocationsLoopD] using h
  | cons loc rest ih =>
    intro tr basic h
    simp only [searchLocationsLoopD]
    rcases hs : search_single_location kw cap budget tr with ⟨ljobs, tr'⟩
    by_cases hge : maxR ≤ (basic ++ ljobs).length
    · simp only [hge, if_true, List.length_take]
      omega
    · simp only [hge, if_false]
      exact ih tr' _ (by omega)

theorem searchLocationsLoopB_length_le (kw : String) (cap budget maxR : Nat) :
    ∀ (locs : List String) (tr : List PageResultB) (res : List JobRecord),
      res.length ≤ maxR →
      (searchLocationsLoopB kw cap budget maxR locs tr res).length ≤ maxR := by
  intro locs
  induction locs with
  | nil => intro tr res h; simpa [searchLocationsLoopB] using h
  | cons loc rest ih =>
    intro tr res h
    simp only [searchLocationsLoopB]
    rcases hs : pageLoopB kw cap budget tr 0 res 0 with ⟨res', tr'⟩
    by_cases hge : maxR ≤ res'.length
    · simp only [hge, if_true, List.length_take]
      omega
    · simp only [hge, if_false]
      exact ih tr' res' (by omega)

/-- C3: for every result cap, every search mode, any location
argument and arbitrary page-response traces, the final result set
never exceeds the cap — the per-location concatenation is truncated to
`max_results` as soon as it reaches it, and the phase-2 detail pass of
detailed mode maps over the capped list one-to-one. -/
theorem C3_result_cap (kw : String) (loc : LocationArg) (cap R : Nat)
    (trD : List PageResultD) (dpf : Nat → PageFetch) (daf : Nat → ApiFetch)
    (trB : List PageResultB) :
    (search_linkedin_jobs kw loc cap R trD dpf daf).length ≤ R ∧
    (search_linkedin_jobs_basic kw loc cap R trB).length ≤ R := by
  constructor
  · have hb := searchLocationsLoopD_length_le kw cap
      (R / (locations_to_search loc).length) R
      (locations_to_search loc) trD [] (by simp)
    simpa [search_linkedin_jobs, List.length_map, List.enum_length] using hb
  · exact searchLocationsLoopB_length_le kw cap
      (R / (locations_to_search loc).length) R
      (locations_to_search loc) trB [] (by simp)

theorem pageLoopD_zero_budget (kw : String) (cap : Nat)
    (tr : List PageResultD) (jf : Nat) (acc : List JobRecord) (cpw rle : Nat) :
    pageLoopD kw cap 0 tr jf acc cpw rle = (jf, acc, rle, tr) := by
  cases tr with
  | nil => rfl
  | cons pr rest =>
    simp only [pageLoopD]
    rw [if_pos (Or.inl (Nat.zero_le jf))]

theorem search_single_location_zero_budget (kw : String) (cap : Nat)
    (tr : List PageResultD) :
    search_single_location kw cap 0 tr = ([], tr) := by
  simp only [search_single_location, pageLoopD_zero_budget]
  simp

theorem pageLoopB_zero_budget (kw : String) (cap : Nat)
    (tr : List PageResultB) (jf : Nat) (res : List JobRecord) (pwr : Nat) :
    pageLoopB kw cap 0 tr jf res pwr = (res, tr) := by
  cases tr with
  | nil => rfl
  | cons pr rest =>
    simp only [pageLoopB]
    rw [if_pos (Or.inl (Nat.zero_le jf))]

theorem searchLocationsLoopD_zero_budget (kw : String) (cap maxR : Nat) :
    ∀ (locs : List String) (tr : List PageResultD),
      searchLocationsLoopD kw cap 0 maxR locs tr [] = [] := by
  intro locs
  induction locs with
  | nil => intro tr; rfl
  | cons loc rest ih =>
    intro tr
    simp only [searchLocationsLoopD, search_single_location_zero_budget]
    by_cases hge : maxR ≤ ([] ++ ([] : List JobRecord)).length
    · simp only [hge, if_true]
      simp
    · simp only [hge, if_false]
      simpa using ih tr

theorem searchLocationsLoopB_zero_budget (kw : String) (cap maxR : Nat) :
    ∀ (locs : List String) (tr : List PageResultB),
      searchLocationsLoopB kw cap 0 maxR locs tr [] = [] := by
  intro locs
  induction locs with
  | nil => intro tr; rfl
  | cons loc rest ih =>
    intro tr
    simp only [searchLocationsLoopB, pageLoopB_zero_budget]
    by_cases hge : maxR ≤ ([] : List JobRecord).length
    · simp only [hge, if_true]
      simp
    · simp only [hge, if_false]
      exact ih tr

/-- C9: in a multi-location search with more locations than the result
cap, the integer per-location budget `max_results // len(locations)`
is 0, the per-location page loop's entry condition is immediately
false so it admits no job from any page, and both search modes return
an empty result set whatever the pages contain. -/
theorem C9_starvation (kw : String) (ls : List String) (cap R : Nat)
    (trD : List PageResultD) (dpf : Nat → PageFetch) (daf : Nat → ApiFetch)
    (trB : List PageResultB) (h : R < ls.length) :
    R / ls.length = 0 ∧
    (∀ tr : List PageResultD, (search_single_location kw cap 0 tr).1 = []) ∧
    search_linkedin_jobs kw (.listLoc ls) cap R trD dpf daf = [] ∧
    search_linkedin_jobs_basic kw (.listLoc ls) cap R trB = [] := by
  have hdiv : R / ls.length = 0 := Nat.div_eq_of_lt h
  refine ⟨hdiv, ?_, ?_, ?_⟩
  · intro tr
    rw [search_single_location_zero_budget]
  · simp only [search_linkedin_jobs, locations_to_search, hdiv,
      searchLocationsLoopD_zero_budget]
    rfl
  · simp only [search_linkedin_jobs_basic, locations_to_search, hdiv,
      searchLocationsLoopB_zero_budget]

/-- C9, witness: three locations against a result cap of two. -/
theorem C9_starvation_witness :
    2 / (["a", "b", "c"] : List String).length = 0 ∧
    search_linkedin_jobs "x" (.listLoc ["a", "b", "c"]) 10 2
      [.okCards [exC1Card]] (fun _ => .ok exC1Soup) (fun _ => .fail) = [] ∧
    search_linkedin_jobs_basic "x" (.listLoc ["a", "b", "c"]) 10 2
      [.okCards [exC1Card]] = [] := by
  refine ⟨?_, ?_, ?_⟩
  · exact (C9_starvation "x" ["a", "b", "c"] 10 2 [.okCards [exC1Card]]
      (fun _ => .ok exC1Soup) (fun _ => .fail) [.okCards [exC1Card]]
      (by decide)).1
  · exact (C9_starvation "x" ["a", "b", "c"] 10 2 [.okCards [exC1Card]]
      (fun _ => .ok exC1Soup) (fun _ => .fail) [.okCards [exC1Card]]
      (by decide)).2.2.1
  · exact (C9_starvation "x" ["a", "b", "c"] 10 2 [.okCards [exC1Card]]
      (fun _ => .ok exC1Soup) (fun _ => .fail) [.okCards [exC1Card]]
      (by decide)).2.2.2

/-- State carried in a step result. -/
def stepState {α : Type} : StepResult α → WorkflowState
  | .ok _ st _ => st
  | .exit0 st _ => st
  | .fail st _ => st

/-- Whether the step body ran. -/
def stepExecuted {α : Type} : StepResult α → Bool
  | .ok _ _ ex => ex
  | .exit0 _ ex => ex
  | .fail _ ex => ex

theorem step1_exec_not_completed (cfg : WorkflowConfig) (env : WorkflowEnv)
    (st : WorkflowState) :
    stepExecuted (step1_job_search cfg env st) = true →
    "step1_job_search" ∉ st.completed_steps := by
  intro hex hmem
  unfold step1_job_search at hex
  rw [if_pos hmem] at hex
  cases h : st.data_job_search_output <;> rw [h] at hex <;> simp [stepExecuted] at hex

theorem step2_exec_not_completed (cfg : WorkflowConfig) (env : WorkflowEnv)
    (st : WorkflowState) :
    stepExecuted (step2_folder_creation cfg env st) = true →
    "step2_folder_creation" ∉ st.completed_steps := by
  intro hex hmem
  unfold step2_folder_creation at hex
  rw [if_pos hmem] at hex
  simp [stepExecuted] at hex

theorem step3_exec_not_completed (cfg : WorkflowConfig) (env : WorkflowEnv)
    (st : WorkflowState) (folders : List String) :
    stepExecuted (step3_ai_tailoring cfg env st folders) = true →
    "step3_ai_tailoring" ∉ st.completed_steps := by
  intro hex hmem
  unfold step3_ai_tailoring at hex
  rw [if_pos hmem] at hex
  simp [stepExecuted] at hex

theorem step4_exec_not_completed (cfg : WorkflowConfig) (env : WorkflowEnv)
    (st : WorkflowState) (folders : List String) :
    stepExecuted (step4_build_pdfs cfg env st folders) = true →
    "step4_build_pdfs" ∉ st.completed_steps := by
  intro hex hmem
  unfold step4_build_pdfs at hex
  rw [if_pos hmem] at hex
  simp [stepExecuted] at hex

theorem step1_state (cfg : WorkflowConfig) (env : WorkflowEnv) (st : WorkflowState) :
    (stepState (step1_job_search cfg env st)).completed_steps = st.completed_steps ∨
    ((stepState (step1_job_search cfg env st)).completed_steps =
        st.completed_steps ++ ["step1_job_search"] ∧
      "step1_job_search" ∉ st.completed_steps) := by
  unfold step1_job_search
  by_cases h1 : "step1_job_search" ∈ st.completed_steps
  · rw [if_pos h1]
    cases st.data_job_search_output <;> simp [stepState]
  · rw [if_neg h1]
    repeat' split
    all_goals simp [stepState, h1]

theorem step2_state (cfg : WorkflowConfig) (env : WorkflowEnv) (st : WorkflowState) :
    (stepState (step2_folder_creation cfg env st)).completed_steps = st.completed_steps ∨
    ((stepState (step2_folder_creation cfg env st)).completed_steps =
        st.completed_steps ++ ["step2_folder_creation"] ∧
      "step2_folder_creation" ∉ st.completed_steps) := by
  unfold step2_folder_creation
  by_cases h1 : "step2_folder_creation" ∈ st.completed_steps
  · rw [if_pos h1]
    simp [stepState]
  · rw [if_neg h1]
    repeat' split
    all_goals simp [stepState, h1]

theorem step3_state (cfg : WorkflowConfig) (env : WorkflowEnv) (st : WorkflowState)
    (folders : List String) :
    (stepState (step3_ai_tailoring cfg env st folders)).completed_steps = st.completed_steps ∨
    ((stepState (step3_ai_tailoring cfg env st folders)).completed_steps =
        st.completed_steps ++ ["step3_ai_tailoring"] ∧
      "step3_ai_tailoring" ∉ st.completed_steps) := by
  unfold step3_ai_tailoring
  by_cases h1 : "step3_ai_tailoring" ∈ st.completed_steps
  · rw [if_pos h1]
    simp [stepState]
  · rw [if_neg h1]
    repeat' split
    all_goals simp [stepState, h1]

theorem step4_state (cfg : WorkflowConfig) (env : WorkflowEnv) (st : WorkflowState)
    (folders : List String) :
    (stepState (step4_build_pdfs cfg env st folders)).completed_steps = st.completed_steps ∨
    ((stepState (step4_build_pdfs cfg env st folders)).completed_steps =
        st.completed_steps ++ ["step4_build_pdfs"] ∧
      "step4_build_pdfs" ∉ st.completed_steps) := by
  unfold step4_build_pdfs
  by_cases h1 : "step4_build_pdfs" ∈ st.completed_steps
  · rw [if_pos h1]
    simp [stepState]
  · rw [if_neg h1]
    by_cases h2 : ¬ cfg.build_enabled = true
    · rw [if_pos h2]
      simp [stepState]
    · rw [if_neg h2]
      dsimp only
      by_cases h3 : ¬ runFolderCmds (fun f =>
          match st.data_job_title with
          | none => false
          | some _ => env.buildOk f) cfg.continue_on_error folders = true
      · rw [if_pos h3]
        simp [stepState]
      · rw [if_neg h3]
        simp [stepState, h1]

theorem nodup_append_singleton {l : List String} {x : String}
    (h : l.Nodup) (hx : x ∉ l) : (l ++ [x]).Nodup :=
  List.Nodup.append h (List.nodup_singleton x)
    (by simpa [List.disjoint_singleton] using hx)

theorem step1_nodup (cfg : WorkflowConfig) (env : WorkflowEnv) (st : WorkflowState)
    (h : st.completed_steps.Nodup) :
    (stepState (step1_job_search cfg env st)).completed_steps.Nodup := by
  rcases step1_state cfg env st with he | ⟨he, hn⟩
  · rw [he]; exact h
  · rw [he]; exact nodup_append_singleton h hn

theorem step2_nodup (cfg : WorkflowConfig) (env : WorkflowEnv) (st : WorkflowState)
    (h : st.completed_steps.Nodup) :
    (stepState (step2_folder_creation cfg env st)).completed_steps.Nodup := by
  rcases step2_state cfg env st with he | ⟨he, hn⟩
  · rw [he]; exact h
  · rw [he]; exact nodup_append_singleton h hn

theorem step3_nodup (cfg : WorkflowConfig) (env : WorkflowEnv) (st : WorkflowState)
    (folders : List String) (h : st.completed_steps.Nodup) :
    (stepState (step3_ai_tailoring cfg env st folders)).completed_steps.Nodup := by
  rcases step3_state cfg env st folders with he | ⟨he, hn⟩
  · rw [he]; exact h
  · rw [he]; exact nodup_append_singleton h hn

theorem step4_nodup (cfg : WorkflowConfig) (env : WorkflowEnv) (st : WorkflowState)
    (folders : List String) (h : st.completed_steps.Nodup) :
    (stepState (step4_build_pdfs cfg env st folders)).completed_steps.Nodup := by
  rcases step4_state cfg env st folders with he | ⟨he, hn⟩
  · rw [he]; exact h
  · rw [he]; exact nodup_append_singleton h hn

theorem step3_state_mem (cfg : WorkflowConfig) (env : WorkflowEnv) (st : WorkflowState)
    (folders : List String) {n : String} (hn : n ∈ st.completed_steps) :
    n ∈ (stepState (step3_ai_tailoring cfg env st folders)).completed_steps := by
  rcases step3_state cfg env st folders with he | ⟨he, _⟩ <;> rw [he]
  · exact hn
  · exact List.mem_append_left _ hn

theorem step2_state_mem (cfg : WorkflowConfig) (env : WorkflowEnv) (st : WorkflowState)
    {n : String} (hn : n ∈ st.completed_steps) :
    n ∈ (stepState (step2_folder_creation cfg env st)).completed_steps := by
  rcases step2_state cfg env st with he | ⟨he, _⟩ <;> rw [he]
  · exact hn
  · exact List.mem_append_left _ hn

theorem step1_state_mem (cfg : WorkflowConfig) (env : WorkflowEnv) (st : WorkflowState)
    {n : String} (hn : n ∈ st.completed_steps) :
    n ∈ (stepState (step1_job_search cfg env st)).completed_steps := by
  rcases step1_state cfg env st with he | ⟨he, _⟩ <;> rw [he]
  · exact hn
  · exact List.mem_append_left _ hn

theorem runPhase4_not_executed (cfg : WorkflowConfig) (env : WorkflowEnv)
    (rf : Option String) (folders : List String) (st : WorkflowState) :
    ∀ n ∈ st.completed_steps, n ∉ (runPhase4 cfg env rf folders st).executed := by
  intro n hn hmem
  unfold runPhase4 at hmem
  by_cases hc : step4Cond rf = true
  · rw [if_pos hc] at hmem
    rcases hs : step4_build_pdfs cfg env st folders with ⟨v, st', ex⟩ | ⟨st', ex⟩ | ⟨st', ex⟩ <;>
      rw [hs] at hmem <;> dsimp only at hmem <;>
      (cases ex with
        | false => simp at hmem
        | true =>
          simp only [if_true] at hmem
          rw [List.mem_singleton] at hmem
          subst hmem
          exact step4_exec_not_completed cfg env st folders (by rw [hs]; rfl) hn)
  · rw [if_neg hc] at hmem
    simp at hmem

theorem runPhase4_nodup (cfg : WorkflowConfig) (env : WorkflowEnv)
    (rf : Option String) (folders : List String) (st : WorkflowState)
    (h : st.completed_steps.Nodup) :
    ((runPhase4 cfg env rf folders st).state).completed_steps.Nodup := by
  unfold runPhase4
  by_cases hc : step4Cond rf = true
  · rw [if_pos hc]
    have h4 := step4_nodup cfg env st folders h
    rcases hs : step4_build_pdfs cfg env st folders with ⟨v, st', ex⟩ | ⟨st', ex⟩ | ⟨st', ex⟩ <;>
      rw [hs] at h4 <;> exact h4
  · rw [if_neg hc]
    exact h

theorem runPhase4_state_mem (cfg : WorkflowConfig) (env : WorkflowEnv)
    (rf : Option String) (folders : List String) (st : WorkflowState)
    {n : String} (hn : n ∈ st.completed_steps) :
    n ∈ ((runPhase4 cfg env rf folders st).state).completed_steps := by
  unfold runPhase4
  by_cases hc : step4Cond rf = true
  · rw [if_pos hc]
    have h4 := step4_state cfg env st folders
    rcases hs : step4_build_pdfs cfg env st folders with ⟨v, st', ex⟩ | ⟨st', ex⟩ | ⟨st', ex⟩ <;>
      rw [hs] at h4 <;> dsimp only [stepState] at h4 <;>
      (rcases h4 with he | ⟨he, _⟩ <;> dsimp only <;> rw [he]
       · exact hn
       · exact List.mem_append_left _ hn)
  · rw [if_neg hc]
    exact hn

theorem runPhase3_not_executed (cfg : WorkflowConfig) (env : WorkflowEnv)
    (rf : Option String) (folders : List String) (st : WorkflowState) :
    ∀ n ∈ st.completed_steps, n ∉ (runPhase3 cfg env rf folders st).executed := by
  intro n hn hmem
  unfold runPhase3 at hmem
  by_cases hc : step3Cond rf = true
  · rw [if_pos hc] at hmem
    rcases hs : step3_ai_tailoring cfg env st folders with ⟨v, st', ex⟩ | ⟨st', ex⟩ | ⟨st', ex⟩ <;>
      rw [hs] at hmem <;> dsimp only at hmem
    · rw [List.mem_append] at hmem
      rcases hmem with hmem | hmem
      · cases ex with
        | false => simp at hmem
        | true =>
          simp only [if_true] at hmem
          rw [List.mem_singleton] at hmem
          subst hmem
          exact step3_exec_not_completed cfg env st folders (by rw [hs]; rfl) hn
      · have hn' : n ∈ st'.completed_steps := by
          have := step3_state_mem cfg env st folders hn
          rw [hs] at this
          exact this
        exact runPhase4_not_executed cfg env rf folders st' n hn' hmem
    · cases ex with
      | false => simp at hmem
      | true =>
        simp only [if_true] at hmem
        rw [List.mem_singleton] at hmem
        subst hmem
        exact step3_exec_not_completed cfg env st folders (by rw [hs]; rfl) hn
    · cases ex with
      | false => simp at hmem
      | true =>
        simp only [if_true] at hmem
        rw [List.mem_singleton] at hmem
        subst hmem
        exact step3_exec_not_completed cfg env st folders (by rw [hs]; rfl) hn
  · rw [if_neg hc] at hmem
    exact runPhase4_not_executed cfg env rf folders st n hn hmem

theorem runPhase3_nodup (cfg : WorkflowConfig) (env : WorkflowEnv)
    (rf : Option String) (folders : List String) (st : WorkflowState)
    (h : st.completed_steps.Nodup) :
    ((runPhase3 cfg env rf folders st).state).completed_steps.Nodup := by
  unfold runPhase3
  by_cases hc : step3Cond rf = true
  · rw [if_pos hc]
    have h3 := step3_nodup cfg env st folders h
    rcases hs : step3_ai_tailoring cfg env st folders with ⟨v, st', ex⟩ | ⟨st', ex⟩ | ⟨st', ex⟩ <;>
      rw [hs] at h3 <;> dsimp only [stepState] at h3
    · exact runPhase4_nodup cfg env rf folders st' h3
    · exact h3
    · exact h3
  · rw [if_neg hc]
    exact runPhase4_nodup cfg env rf folders st h

theorem runPhase3_state_mem (cfg : WorkflowConfig) (env : WorkflowEnv)
    (rf : Option String) (folders : List String) (st : WorkflowState)
    {n : String} (hn : n ∈ st.completed_steps) :
    n ∈ ((runPhase3 cfg env rf folders st).state).completed_steps := by
  unfold runPhase3
  by_cases hc : step3Cond rf = true
  · rw [if_pos hc]
    have h3 := step3_state_mem cfg env st folders hn
    rcases hs : step3_ai_tailoring cfg env st folders with ⟨v, st', ex⟩ | ⟨st', ex⟩ | ⟨st', ex⟩ <;>
      rw [hs] at h3 <;> dsimp only [stepState] at h3
    · exact runPhase4_state_mem cfg env rf folders st' h3
    · exact h3
    · exact h3
  · rw [if_neg hc]
    exact runPhase4_state_mem cfg env rf folders st hn

theorem runPhase2_not_executed (cfg : WorkflowConfig) (env : WorkflowEnv)
    (rf : Option String) (st : WorkflowState) :
    ∀ n ∈ st.completed_steps, n ∉ (runPhase2 cfg env rf st).executed := by
  intro n hn hmem
  unfold runPhase2 at hmem
  by_cases hc : step2Cond rf = true
  · rw [if_pos hc] at hmem
    rcases hs : step2_folder_creation cfg env st with ⟨folders, st', ex⟩ | ⟨st', ex⟩ | ⟨st', ex⟩ <;>
      rw [hs] at hmem <;> dsimp only at hmem
    · have hn' : n ∈ st'.completed_steps := by
        have := step2_state_mem cfg env st hn
        rw [hs] at this
        exact this
      by_cases hf : folders = []
      · rw [if_pos hf] at hmem
        dsimp only at hmem
        cases ex with
        | false => simp at hmem
        | true =>
          simp only [if_true] at hmem
          rw [List.mem_singleton] at hmem
          subst hmem
          exact step2_exec_not_completed cfg env st (by rw [hs]; rfl) hn
      · rw [if_neg hf] at hmem
        dsimp only at hmem
        rw [List.mem_append] at hmem
        rcases hmem with hmem | hmem
        · cases ex with
          | false => simp at hmem
          | true =>
            simp only [if_true] at hmem
            rw [List.mem_singleton] at hmem
            subst hmem
            exact step2_exec_not_completed cfg env st (by rw [hs]; rfl) hn
        · exact runPhase3_not_executed cfg env rf folders st' n hn' hmem
    · cases ex with
      | false => simp at hmem
      | true =>
        simp only [if_true] at hmem
        rw [List.mem_singleton] at hmem
        subst hmem
        exact step2_exec_not_completed cfg env st (by rw [hs]; rfl) hn
    · cases ex with
      | false => simp at hmem
      | true =>
        simp only [if_true] at hmem
        rw [List.mem_singleton] at hmem
        subst hmem
        exact step2_exec_not_completed cfg env st (by rw [hs]; rfl) hn
  · rw [if_neg hc] at hmem
    by_cases hf : st.data_created_folders.getD [] = []
    · rw [if_pos hf] at hmem
      simp at hmem
    · rw [if_neg hf] at hmem
      exact runPhase3_not_executed cfg env rf _ st n hn hmem

theorem runPhase2_nodup (cfg : WorkflowConfig) (env : WorkflowEnv)
    (rf : Option String) (st : WorkflowState)
    (h : st.completed_steps.Nodup) :
    ((runPhase2 cfg env rf st).state).completed_steps.Nodup := by
  unfold runPhase2
  by_cases hc : step2Cond rf = true
  · rw [if_pos hc]
    have h2 := step2_nodup cfg env st h
    rcases hs : step2_folder_creation cfg env st with ⟨folders, st', ex⟩ | ⟨st', ex⟩ | ⟨st', ex⟩ <;>
      rw [hs] at h2 <;> dsimp only [stepState] at h2 <;> dsimp only
    · by_cases hf : folders = []
      · rw [if_pos hf]
        exact h2
      · rw [if_neg hf]
        exact runPhase3_nodup cfg env rf folders st' h2
    · exact h2
    · exact h2
  · rw [if_neg hc]
    by_cases hf : st.data_created_folders.getD [] = []
    · rw [if_pos hf]
      exact h
    · rw [if_neg hf]
      exact runPhase3_nodup cfg env rf _ st h

theorem runWorkflow_not_executed (cfg : WorkflowConfig) (env : WorkflowEnv)
    (st : WorkflowState) (rf : Option String) :
    ∀ n ∈ st.completed_steps, n ∉ (runWorkflow cfg env st rf).executed := by
  intro n hn hmem
  unfold runWorkflow at hmem
  by_cases hc : step1Cond rf = true
  · rw [if_pos hc] at hmem
    rcases hs : step1_job_search cfg env st with ⟨out, st', ex⟩ | ⟨st', ex⟩ | ⟨st', ex⟩ <;>
      rw [hs] at hmem <;> dsimp only at hmem
    · have hn' : n ∈ st'.completed_steps := by
        have := step1_state_mem cfg env st hn
        rw [hs] at this
        exact this
      cases out with
      | none =>
        dsimp only at hmem
        cases ex with
        | false => simp at hmem
        | true =>
          simp only [if_true] at hmem
          rw [List.mem_singleton] at hmem
          subst hmem
          exact step1_exec_not_completed cfg env st (by rw [hs]; rfl) hn
      | some q =>
        dsimp only at hmem
        rw [List.mem_append] at hmem
        rcases hmem with hmem | hmem
        · cases ex with
          | false => simp at hmem
          | true =>
            simp only [if_true] at hmem
            rw [List.mem_singleton] at hmem
            subst hmem
            exact step1_exec_not_completed cfg env st (by rw [hs]; rfl) hn
        · exact runPhase2_not_executed cfg env rf st' n hn' hmem
    · cases ex with
      | false => simp at hmem
      | true =>
        simp only [if_true] at hmem
        rw [List.mem_singleton] at hmem
        subst hmem
        exact step1_exec_not_completed cfg env st (by rw [hs]; rfl) hn
    · cases ex with
      | false => simp at hmem
      | true =>
        simp only [if_true] at hmem
        rw [List.mem_singleton] at hmem
        subst hmem
        exact step1_exec_not_completed cfg env st (by rw [hs]; rfl) hn
  · rw [if_neg hc] at hmem
    cases ho : st.data_job_search_output <;> rw [ho] at hmem <;> dsimp only at hmem
    · simp at hmem
    · exact runPhase2_not_executed cfg env rf st n hn hmem

theorem runWorkflow_nodup (cfg : WorkflowConfig) (env : WorkflowEnv)
    (st : WorkflowState) (rf : Option String)
    (h : st.completed_steps.Nodup) :
    ((runWorkflow cfg env st rf).state).completed_steps.Nodup := by
  unfold runWorkflow
  by_cases hc : step1Cond rf = true
  · rw [if_pos hc]
    have h1 := step1_nodup cfg env st h
    rcases hs : step1_job_search cfg env st with ⟨out, st', ex⟩ | ⟨st', ex⟩ | ⟨st', ex⟩ <;>
      rw [hs] at h1 <;> dsimp only [stepState] at h1
    · cases out with
      | none => exact h1
      | some q => exact runPhase2_nodup cfg env rf st' h1
    · exact h1
    · exact h1
  · rw [if_neg hc]
    cases ho : st.data_job_search_output <;> dsimp only
    · exact h
    · exact runPhase2_nodup cfg env rf st h

/-- C6: orchestrator idempotence.  (1)-(4): each step whose name is
already in `completed_steps` skips its body and reuses its recorded
output from the data map (steps 3 and 4 have no output).  (5): a run
never executes the body of a step already completed in the incoming
state.  (6): hence a second run over the state left by a first run
re-executes no step the first run completed.  (7): each step name is
appended at most once — a duplicate-free completed list stays
duplicate-free across a run. -/
theorem C6_orchestrator_idempotence (cfg cfg2 : WorkflowConfig)
    (env env2 : WorkflowEnv) (st : WorkflowState) (rf rf2 : Option String) :
    (∀ p : String, "step1_job_search" ∈ st.completed_steps →
      st.data_job_search_output = some p →
      step1_job_search cfg env st = .ok (some p) st false) ∧
    ("step2_folder_creation" ∈ st.completed_steps →
      step2_folder_creation cfg env st =
        .ok (st.data_created_folders.getD []) st false) ∧
    (∀ folders : List String, "step3_ai_tailoring" ∈ st.completed_steps →
      step3_ai_tailoring cfg env st folders = .ok () st false) ∧
    (∀ folders : List String, "step4_build_pdfs" ∈ st.completed_steps →
      step4_build_pdfs cfg env st folders = .ok () st false) ∧
    (∀ n ∈ st.completed_steps, n ∉ (runWorkflow cfg env st rf).executed) ∧
    (∀ n ∈ ((runWorkflow cfg env st rf).state).completed_steps,
      n ∉ (runWorkflow cfg2 env2 ((runWorkflow cfg env st rf).state) rf2).executed) ∧
    (st.completed_steps.Nodup →
      ((runWorkflow cfg env st rf).state).completed_steps.Nodup) := by
  refine ⟨?_, ?_, ?_, ?_, ?_, ?_, ?_⟩
  · intro p hmem hp
    unfold step1_job_search
    rw [if_pos hmem, hp]
  · intro hmem
    unfold step2_folder_creation
    rw [if_pos hmem]
  · intro folders hmem
    unfold step3_ai_tailoring
    rw [if_pos hmem]
  · intro folders hmem
    unfold step4_build_pdfs
    rw [if_pos hmem]
  · exact runWorkflow_not_executed cfg env st rf
  · exact runWorkflow_not_executed cfg2 env2 _ rf2
  · exact runWorkflow_nodup cfg env st rf

/-- C6, witness inputs: a fully completed, well-formed state. -/
def exC6Cfg : WorkflowConfig :=
  { job_search_enabled := true, folder_creation_enabled := true,
    ai_tailoring_enabled := true, build_enabled := true,
    confirm_after_search := true, confirm_after_folder_creation := true,
    confirm_after_tailoring := true, confirm_after_build := true,
    continue_on_error := false }

def exC6Env : WorkflowEnv :=
  { searchCmdOk := true, searchOutput := some "out.json", folderCmdOk := true,
    folderJsonTitle := some "DS", titleDirExists := true,
    createdFolders := ["/tmp/x"], tailorOk := fun _ => true,
    buildOk := fun _ => true, confirmSearch := true, confirmFolders := true,
    confirmTailoring := true }

def exC6St : WorkflowState :=
  { completed_steps := ["step1_job_search", "step2_folder_creation",
      "step3_ai_tailoring", "step4_build_pdfs"],
    data_job_search_output := some "out.json",
    data_created_folders := some ["/tmp/a"],
    data_job_title := some "DS" }

theorem C6_orchestrator_idempotence_witness :
    step1_job_search exC6Cfg exC6Env exC6St = .ok (some "out.json") exC6St false ∧
    step2_folder_creation exC6Cfg exC6Env exC6St = .ok ["/tmp/a"] exC6St false ∧
    step3_ai_tailoring exC6Cfg exC6Env exC6St ["/tmp/a"] = .ok () exC6St false ∧
    step4_build_pdfs exC6Cfg exC6Env exC6St ["/tmp/a"] = .ok () exC6St false ∧
    "step1_job_search" ∉ (runWorkflow exC6Cfg exC6Env exC6St none).executed ∧
    "step2_folder_creation" ∉
      (runWorkflow exC6Cfg exC6Env
        ((runWorkflow exC6Cfg exC6Env exC6St none).state) none).executed ∧
    ((runWorkflow exC6Cfg exC6Env exC6St none).state).completed_steps.Nodup := by
  refine ⟨?_, ?_, ?_, ?_, ?_, ?_, ?_⟩
  · exact (C6_orchestrator_idempotence exC6Cfg exC6Cfg exC6Env exC6Env exC6St
      none none).1 "out.json" (by decide) rfl
  · exact (C6_orchestrator_idempotence exC6Cfg exC6Cfg exC6Env exC6Env exC6St
      none none).2.1 (by decide)
  · exact (C6_orchestrator_idempotence exC6Cfg exC6Cfg exC6Env exC6Env exC6St
      none none).2.2.1 ["/tmp/a"] (by decide)
  · exact (C6_orchestrator_idempotence exC6Cfg exC6Cfg exC6Env exC6Env exC6St
      none none).2.2.2.1 ["/tmp/a"] (by decide)
  · exact (C6_orchestrator_idempotence exC6Cfg exC6Cfg exC6Env exC6Env exC6St
      none none).2.2.2.2.1 "step1_job_search" (by decide)
  · exact (C6_orchestrator_idempotence exC6Cfg exC6Cfg exC6Env exC6Env exC6St
      none none).2.2.2.2.2.1 "step2_folder_creation" (by decide)
  · exact (C6_orchestrator_idempotence exC6Cfg exC6Cfg exC6Env exC6Env exC6St
      none none).2.2.2.2.2.2 (by decide)

/-- C7: with steps 1 and 2 recorded as completed and two recorded
folders, `run()` with no `resume_from` executes exactly the step-3 and
step-4 bodies, and both receive exactly the two recorded folders.  As
the spec's state invariant requires, the data keys a later step reads
must have been populated (`job_search_output` here; without it the
skipped step 1 would raise on `Path(None)`).  The step-3 subprocesses
are assumed to succeed and its confirmation, when enabled, to be
accepted — otherwise the run stops before step 4. -/
theorem C7_resume_scenario (cfg : WorkflowConfig) (env : WorkflowEnv)
    (st : WorkflowState) (p : String)
    (hcs : st.completed_steps = ["step1_job_search", "step2_folder_creation"])
    (hjso : st.data_job_search_output = some p)
    (hcf : st.data_created_folders = some ["/tmp/a", "/tmp/b"])
    (h3e : cfg.ai_tailoring_enabled = true)
    (h4e : cfg.build_enabled = true)
    (htail : ∀ f, env.tailorOk f = true)
    (hconf : cfg.confirm_after_tailoring = true → env.confirmTailoring = true) :
    (runWorkflow cfg env st none).executed =
      ["step3_ai_tailoring", "step4_build_pdfs"] ∧
    (runWorkflow cfg env st none).step3Folders = some ["/tmp/a", "/tmp/b"] ∧
    (runWorkflow cfg env st none).step4Folders = some ["/tmp/a", "/tmp/b"] := by
  have h1 : step1_job_search cfg env st = .ok (some p) st false := by
    unfold step1_job_search
    rw [if_pos (by rw [hcs]; decide), hjso]
  have h2 : step2_folder_creation cfg env st = .ok ["/tmp/a", "/tmp/b"] st false := by
    unfold step2_folder_creation
    rw [if_pos (by rw [hcs]; decide), hcf]
    rfl
  have h3 : step3_ai_tailoring cfg env st ["/tmp/a", "/tmp/b"] =
      .ok () { st with completed_steps :=
        st.completed_steps ++ ["step3_ai_tailoring"] } true := by
    unfold step3_ai_tailoring
    rw [if_neg (by rw [hcs]; decide), if_neg (by simp [h3e])]
    have hrun : runFolderCmds env.tailorOk cfg.continue_on_error
        ["/tmp/a", "/tmp/b"] = true := by
      simp [runFolderCmds, htail]
    rw [if_neg (by simp [hrun])]
    dsimp only
    by_cases hc3 : cfg.confirm_after_tailoring = true
    · rw [if_pos hc3, if_pos (hconf hc3)]
    · rw [if_neg hc3]
  have h4ex : stepExecuted (step4_build_pdfs cfg env
      { st with completed_steps := st.completed_steps ++ ["step3_ai_tailoring"] }
      ["/tmp/a", "/tmp/b"]) = true := by
    unfold step4_build_pdfs
    rw [if_neg (by simp only [hcs]; decide), if_neg (by simp [h4e])]
    dsimp only
    split <;> rfl
  have h4r : (runPhase4 cfg env none ["/tmp/a", "/tmp/b"]
        { st with completed_steps :=
          st.completed_steps ++ ["step3_ai_tailoring"] }).executed =
        ["step4_build_pdfs"] ∧
      (runPhase4 cfg env none ["/tmp/a", "/tmp/b"]
        { st with completed_steps :=
          st.completed_steps ++ ["step3_ai_tailoring"] }).step4Folders =
        some ["/tmp/a", "/tmp/b"] := by
    unfold runPhase4
    rw [if_pos (show step4Cond none = true from rfl)]
    rcases hs : step4_build_pdfs cfg env
        { st with completed_steps := st.completed_steps ++ ["step3_ai_tailoring"] }
        ["/tmp/a", "/tmp/b"] with ⟨v, st', ex⟩ | ⟨st', ex⟩ | ⟨st', ex⟩ <;>
      rw [hs] at h4ex <;> simp only [stepExecuted] at h4ex <;> subst h4ex <;>
      exact ⟨rfl, rfl⟩
  have hp3 : (runPhase3 cfg env none ["/tmp/a", "/tmp/b"] st).executed =
        ["step3_ai_tailoring", "step4_build_pdfs"] ∧
      (runPhase3 cfg env none ["/tmp/a", "/tmp/b"] st).step3Folders =
        some ["/tmp/a", "/tmp/b"] ∧
      (runPhase3 cfg env none ["/tmp/a", "/tmp/b"] st).step4Folders =
        some ["/tmp/a", "/tmp/b"] := by
    unfold runPhase3
    rw [if_pos (show step3Cond none = true from rfl), h3]
    dsimp only
    refine ⟨?_, rfl, ?_⟩
    · rw [h4r.1]
      rfl
    · rw [h4r.2]
  have hp2 : (runPhase2 cfg env none st).executed =
        ["step3_ai_tailoring", "step4_build_pdfs"] ∧
      (runPhase2 cfg env none st).step3Folders = some ["/tmp/a", "/tmp/b"] ∧
      (runPhase2 cfg env none st).step4Folders = some ["/tmp/a", "/tmp/b"] := by
    unfold runPhase2
    rw [if_pos (show step2Cond none = true from rfl), h2]
    dsimp only
    rw [if_neg (by decide : ¬(["/tmp/a", "/tmp/b"] : List String) = [])]
    dsimp only
    exact ⟨hp3.1, hp3.2.1, hp3.2.2⟩
  unfold runWorkflow
  rw [if_pos (show step1Cond none = true from rfl), h1]
  dsimp only
  exact ⟨hp2.1, hp2.2.1, hp2.2.2⟩

/-- C7, witness: the literal scenario state under an all-enabled
configuration with successful subprocesses. -/
def exC7St : WorkflowState :=
  { completed_steps := ["step1_job_search", "step2_folder_creation"],
    data_job_search_output := some "out.json",
    data_created_folders := some ["/tmp/a", "/tmp/b"],
    data_job_title := some "DS" }

theorem C7_resume_scenario_witness :
    (runWorkflow exC6Cfg exC6Env exC7St none).executed =
      ["step3_ai_tailoring", "step4_build_pdfs"] ∧
    (runWorkflow exC6Cfg exC6Env exC7St none).step3Folders =
      some ["/tmp/a", "/tmp/b"] ∧
    (runWorkflow exC6Cfg exC6Env exC7St none).step4Folders =
      some ["/tmp/a", "/tmp/b"] :=
  C7_resume_scenario exC6Cfg exC6Env exC7St "out.json" rfl rfl rfl rfl rfl
    (fun _ => rfl) (fun _ => rfl)
